import Mathlib

/-!
# Structural equality of Bmad lattice records, and the B4 primary generator

A shallow embedding of `cpp_interface/cpp_equality.cpp` and of
`converter_element_modeling/simulation/src/B4PrimaryGeneratorAction.cpp`.

Conventions of the embedding

* `valarray<T>` is a `List T`; `v.size()` is `v.length` and `v[i]` is `v[i]?`,
  which is `none` outside `0 .. size-1` (the C++ subscript is undefined there).
* `double` is an IEEE-754 binary64 bit pattern (`Double`) and `==` on it is the
  IEEE comparison `Double.eq`: a NaN is unequal to everything, `+0 == -0`.
* `int` is `Int`; the only arithmetic done on an `int` is `n_ele_max + 1`.
  Loop counters are `Nat`; sequences are assumed shorter than `2^31`.
* `std::string` is `String`, `bool` is `Bool`.
* An operator that can evaluate an undefined subscript, or `valarray == valarray`
  on operands of different sizes, returns `Option Bool`; `none` is the fault.
-/

set_option linter.unusedVariables false

namespace Bmad

/-! ## Scalars -/

/-- An IEEE-754 binary64 value: sign bit, 11 exponent bits, 52 fraction bits. -/
structure Double where
  sign : Bool
  expo : Fin 2048
  frac : Fin 4503599627370496
  deriving DecidableEq, Repr

namespace Double

/-- Exponent all ones and a non-zero fraction. -/
def isNaN (d : Double) : Bool := d.expo.val == 2047 && d.frac.val != 0

/-- Either of `+0.0` and `-0.0`. -/
def isZero (d : Double) : Bool := d.expo.val == 0 && d.frac.val == 0

/-- The C++ `==` on `double`: false when an operand is a NaN, true on two
zeros of either sign, and otherwise equality of the bit patterns. -/
def eq (a b : Double) : Bool :=
  !a.isNaN && !b.isNaN && ((a.isZero && b.isZero) || decide (a = b))

/-- The value `+0.0`. -/
def zero : Double := ⟨false, 0, 0⟩

/-- The value `1.0`. -/
def one : Double := ⟨false, 1023, 0⟩

/-- A quiet NaN. -/
def nan : Double := ⟨false, 2047, 2251799813685248⟩

end Double

/-- A `complex<double>`. -/
structure Complx where
  re : Double
  im : Double
  deriving DecidableEq, Repr

/-- The `==` of `std::complex`: both parts compare equal. -/
def Complx.eq (a b : Complx) : Bool := Double.eq a.re b.re && Double.eq a.im b.im

/-- No component is a NaN. -/
def Complx.noNaN (a : Complx) : Bool := !a.re.isNaN && !a.im.isNaN

abbrev Real_Array := List Double
abbrev Complx_Array := List Complx
abbrev Int_Array := List Int
abbrev Bool_Array := List Bool
abbrev Real_Matrix := List Real_Array

/-- The `==` on `int`. -/
def Int_eq (a b : Int) : Bool := a == b

/-! ## The sequence helpers -/

/-- The expression `v1[i] == v2[i]` under the element type's `==`. Both
subscripts are in range wherever `is_all_equal` evaluates it. -/
def eqAt {T : Type} (eq : T → T → Bool) (v1 v2 : List T) (i : Nat) : Bool :=
  match v1[i]?, v2[i]? with
  | some a, some b => eq a b
  | _, _ => false

/-- `template <class T> bool is_all_equal (const valarray<T>&, const valarray<T>&)`:
the size test, then `is_true = is_true && (v1[i] == v2[i])` for `i = 0 .. size-1`. -/
def is_all_equal {T : Type} (eq : T → T → Bool) (v1 v2 : List T) : Bool :=
  if v1.length ≠ v2.length then false
  else (List.range v1.length).foldl (fun is_true i => is_true && eqAt eq v1 v2 i) true

/-- `bool is_all_equal (const Bool_Array& v)`: the conjunction of the entries. -/
def is_all_equal_Bool_Array (v : Bool_Array) : Bool :=
  (List.range v.length).foldl (fun is_true i => is_true && v.getD i false) true

/-- The inner loop of the `Real_Matrix` overload over row `i`:
`is_true = is_true && (v1[i][j] == v2[i][j])` for `j = 0 .. v1[i].size()-1`. -/
def is_all_equal_Real_Matrix.row (r1 r2 : Real_Array) (is_true : Bool) : Bool :=
  (List.range r1.length).foldl (fun t j => t && eqAt Double.eq r1 r2 j) is_true

/-- The outer loop of the `Real_Matrix` overload over the row indices still to
visit; a row of different length returns `false` at once. -/
def is_all_equal_Real_Matrix.rows (v1 v2 : Real_Matrix) : List Nat → Bool → Bool
  | [], is_true => is_true
  | i :: rest, is_true =>
    if (v1.getD i []).length ≠ (v2.getD i []).length then false
    else is_all_equal_Real_Matrix.rows v1 v2 rest
      (is_all_equal_Real_Matrix.row (v1.getD i []) (v2.getD i []) is_true)

/-- `bool is_all_equal (const Real_Matrix& v1, const Real_Matrix& v2)`. -/
def is_all_equal_Real_Matrix (v1 v2 : Real_Matrix) : Bool :=
  if v1.length ≠ v2.length then false
  else is_all_equal_Real_Matrix.rows v1 v2 (List.range v1.length) true

/-- The `valarray` comparison `v1 == v2` of the C++ standard library: the
sequence of the entry-wise comparisons. The standard leaves it undefined when
the two sizes differ (`none`). -/
def valarray_eq {T : Type} (eq : T → T → Bool) (v1 v2 : List T) : Option Bool_Array :=
  if v1.length ≠ v2.length then none else some (List.zipWith eq v1 v2)

/-! ## The record comparisons -/

/-- Modelled from the spec: the class `C_coord`, declared in `cpp_and_bmad.h`, a
header that is not among the sources. The fields are those `operator==` reads. -/
structure C_coord where
  (vec : Real_Array)
  (s t : Double)
  (spin1 spin2 : Complx)
  (e_field_x e_field_y phase_x phase_y : Double)

/-- `bool operator== (const C_coord& x, const C_coord& y)`. -/
def C_coord.operator_eq (x y : C_coord) : Bool :=
  is_all_equal Double.eq x.vec y.vec && Double.eq x.s y.s && Double.eq x.t y.t &&
  Complx.eq x.spin1 y.spin1 && Complx.eq x.spin2 y.spin2 && Double.eq x.e_field_x y.e_field_x &&
  Double.eq x.e_field_y y.e_field_y && Double.eq x.phase_x y.phase_x &&
  Double.eq x.phase_y y.phase_y

/-- Modelled from the spec: the class `C_twiss`, declared in `cpp_and_bmad.h`, a
header that is not among the sources. The fields are those `operator==` reads. -/
structure C_twiss where
  (beta alpha gamma phi eta etap sigma sigma_p : Double)
  (emit norm_emit : Double)

/-- `bool operator== (const C_twiss& x, const C_twiss& y)`. -/
def C_twiss.operator_eq (x y : C_twiss) : Bool :=
  Double.eq x.beta y.beta && Double.eq x.alpha y.alpha && Double.eq x.gamma y.gamma &&
  Double.eq x.phi y.phi && Double.eq x.eta y.eta && Double.eq x.etap y.etap &&
  Double.eq x.sigma y.sigma && Double.eq x.sigma_p y.sigma_p && Double.eq x.emit y.emit &&
  Double.eq x.norm_emit y.norm_emit

/-- Modelled from the spec: the class `C_xy_disp`, declared in `cpp_and_bmad.h`, a
header that is not among the sources. The fields are those `operator==` reads. -/
structure C_xy_disp where
  (eta etap : Double)

/-- `bool operator== (const C_xy_disp& x, const C_xy_disp& y)`. -/
def C_xy_disp.operator_eq (x y : C_xy_disp) : Bool :=
  Double.eq x.eta y.eta && Double.eq x.etap y.etap

/-- Modelled from the spec: the class `C_floor_position`, declared in `cpp_and_bmad.h`, a
header that is not among the sources. The fields are those `operator==` reads. -/
structure C_floor_position where
  (x y z theta phi psi : Double)

/-- `bool operator== (const C_floor_position& x, const C_floor_position& y)`. -/
def C_floor_position.operator_eq (x y : C_floor_position) : Bool :=
  Double.eq x.x y.x && Double.eq x.y y.y && Double.eq x.z y.z && Double.eq x.theta y.theta &&
  Double.eq x.phi y.phi && Double.eq x.psi y.psi

/-- Modelled from the spec: the class `C_wig_term`, declared in `cpp_and_bmad.h`, a
header that is not among the sources. The fields are those `operator==` reads. -/
structure C_wig_term where
  (coef kx ky kz phi_z : Double)
  (type : Int)

/-- `bool operator== (const C_wig_term& x, const C_wig_term& y)`. -/
def C_wig_term.operator_eq (x y : C_wig_term) : Bool :=
  Double.eq x.coef y.coef && Double.eq x.kx y.kx && Double.eq x.ky y.ky &&
  Double.eq x.kz y.kz && Double.eq x.phi_z y.phi_z && (x.type == y.type)

/-- Modelled from the spec: the class `C_taylor_term`, declared in `cpp_and_bmad.h`, a
header that is not among the sources. The fields are those `operator==` reads. -/
structure C_taylor_term where
  (coef : Double)
  (expn : Int_Array)

/-- `bool operator== (const C_taylor_term& x, const C_taylor_term& y)`: the
coefficient and the size of `expn` first, then `is_all_equal` on `expn`. -/
def C_taylor_term.operator_eq (x y : C_taylor_term) : Bool :=
  let is_true := Double.eq x.coef y.coef && (x.expn.length == y.expn.length)
  if !is_true then is_true
  else is_all_equal Int_eq x.expn y.expn

/-- Modelled from the spec: the class `C_taylor`, declared in `cpp_and_bmad.h`, a
header that is not among the sources. The fields are those `operator==` reads. -/
structure C_taylor where
  (ref : Double)
  (term : List C_taylor_term)

/-- `bool operator== (const C_taylor& x, const C_taylor& y)`. -/
def C_taylor.operator_eq (x y : C_taylor) : Bool :=
  Double.eq x.ref y.ref && is_all_equal C_taylor_term.operator_eq x.term y.term

/-- Modelled from the spec: the class `C_rf_wake_sr_table`, declared in `cpp_and_bmad.h`, a
header that is not among the sources. The fields are those `operator==` reads. -/
structure C_rf_wake_sr_table where
  (z longitudinal transverse : Double)

/-- `bool operator== (const C_rf_wake_sr_table& x, const C_rf_wake_sr_table& y)`. -/
def C_rf_wake_sr_table.operator_eq (x y : C_rf_wake_sr_table) : Bool :=
  Double.eq x.z y.z && Double.eq x.longitudinal y.longitudinal &&
  Double.eq x.transverse y.transverse

/-- Modelled from the spec: the class `C_rf_wake_sr_mode`, declared in `cpp_and_bmad.h`, a
header that is not among the sources. The fields are those `operator==` reads. -/
structure C_rf_wake_sr_mode where
  (amp damp k phi b_sin b_cos a_sin a_cos : Double)

/-- `bool operator== (const C_rf_wake_sr_mode& x, const C_rf_wake_sr_mode& y)`. -/
def C_rf_wake_sr_mode.operator_eq (x y : C_rf_wake_sr_mode) : Bool :=
  Double.eq x.amp y.amp && Double.eq x.damp y.damp && Double.eq x.k y.k &&
  Double.eq x.phi y.phi && Double.eq x.b_sin y.b_sin && Double.eq x.b_cos y.b_cos &&
  Double.eq x.a_sin y.a_sin && Double.eq x.a_cos y.a_cos

/-- Modelled from the spec: the class `C_rf_wake_lr`, declared in `cpp_and_bmad.h`, a
header that is not among the sources. The fields are those `operator==` reads. -/
structure C_rf_wake_lr where
  (freq freq_in R_over_Q Q angle b_sin b_cos a_sin : Double)
  (a_cos t_ref : Double)
  (m : Int)
  (polarized : Bool)

/-- `bool operator== (const C_rf_wake_lr& x, const C_rf_wake_lr& y)`. -/
def C_rf_wake_lr.operator_eq (x y : C_rf_wake_lr) : Bool :=
  Double.eq x.freq y.freq && Double.eq x.freq_in y.freq_in && Double.eq x.R_over_Q y.R_over_Q &&
  Double.eq x.Q y.Q && Double.eq x.angle y.angle && Double.eq x.b_sin y.b_sin &&
  Double.eq x.b_cos y.b_cos && Double.eq x.a_sin y.a_sin && Double.eq x.a_cos y.a_cos &&
  Double.eq x.t_ref y.t_ref && (x.m == y.m) && (x.polarized == y.polarized)

/-- Modelled from the spec: the class `C_rf_wake`, declared in `cpp_and_bmad.h`, a
header that is not among the sources. The fields are those `operator==` reads. -/
structure C_rf_wake where
  (sr_file lr_file : String)
  (sr_table : List C_rf_wake_sr_table)
  (sr_mode_long sr_mode_trans : List C_rf_wake_sr_mode)
  (lr : List C_rf_wake_lr)

/-- `bool operator== (const C_rf_wake& x, const C_rf_wake& y)`: the file names
and the four sizes first, then `is_all_equal` on the four sequences. -/
def C_rf_wake.operator_eq (x y : C_rf_wake) : Bool :=
  let all_true := (x.sr_file == y.sr_file) && (x.lr_file == y.lr_file) &&
    (x.sr_table.length == y.sr_table.length) &&
    (x.sr_mode_long.length == y.sr_mode_long.length) &&
    (x.sr_mode_trans.length == y.sr_mode_trans.length) && (x.lr.length == y.lr.length)
  if !all_true then all_true
  else is_all_equal C_rf_wake_sr_table.operator_eq x.sr_table y.sr_table &&
    is_all_equal C_rf_wake_sr_mode.operator_eq x.sr_mode_long y.sr_mode_long &&
    is_all_equal C_rf_wake_sr_mode.operator_eq x.sr_mode_trans y.sr_mode_trans &&
    is_all_equal C_rf_wake_lr.operator_eq x.lr y.lr

/-- Modelled from the spec: the class `C_rf_field_mode_term`, declared in `cpp_and_bmad.h`, a
header that is not among the sources. The fields are those `operator==` reads. -/
structure C_rf_field_mode_term where
  (e b : Complx)

/-- `bool operator== (const C_rf_field_mode_term& x, const C_rf_field_mode_term& y)`. -/
def C_rf_field_mode_term.operator_eq (x y : C_rf_field_mode_term) : Bool :=
  Complx.eq x.e y.e && Complx.eq x.b y.b

/-- Modelled from the spec: the class `C_rf_field_mode`, declared in `cpp_and_bmad.h`, a
header that is not among the sources. The fields are those `operator==` reads. -/
structure C_rf_field_mode where
  (m : Int)
  (freq f_damp theta_t0 stored_energy phi_0 dz : Double)
  (term : List C_rf_field_mode_term)

/-- `bool operator== (const C_rf_field_mode& x, const C_rf_field_mode& y)`. -/
def C_rf_field_mode.operator_eq (x y : C_rf_field_mode) : Bool :=
  (x.m == y.m) && Double.eq x.freq y.freq && Double.eq x.f_damp y.f_damp &&
  Double.eq x.theta_t0 y.theta_t0 && Double.eq x.stored_energy y.stored_energy &&
  Double.eq x.phi_0 y.phi_0 && Double.eq x.dz y.dz &&
  is_all_equal C_rf_field_mode_term.operator_eq x.term y.term

/-- Modelled from the spec: the class `C_rf_field`, declared in `cpp_and_bmad.h`, a
header that is not among the sources. The fields are those `operator==` reads. -/
structure C_rf_field where
  (mode : List C_rf_field_mode)

/-- `bool operator== (const C_rf_field& x, const C_rf_field& y)`. -/
def C_rf_field.operator_eq (x y : C_rf_field) : Bool :=
  is_all_equal C_rf_field_mode.operator_eq x.mode y.mode

/-- Modelled from the spec: the class `C_rf`, declared in `cpp_and_bmad.h`, a
header that is not among the sources. The fields are those `operator==` reads. -/
structure C_rf where
  (wake : C_rf_wake)
  (field : C_rf_field)

/-- `bool operator== (const C_rf& x, const C_rf& y)`. -/
def C_rf.operator_eq (x y : C_rf) : Bool :=
  C_rf_wake.operator_eq x.wake y.wake && C_rf_field.operator_eq x.field y.field

/-- Modelled from the spec: the class `C_wall3d_vertex`, declared in `cpp_and_bmad.h`, a
header that is not among the sources. The fields are those `operator==` reads. -/
structure C_wall3d_vertex where
  (x y radius_x radius_y tilt angle x0 y0 : Double)

/-- `bool operator== (const C_wall3d_vertex& x, const C_wall3d_vertex& y)`. -/
def C_wall3d_vertex.operator_eq (x y : C_wall3d_vertex) : Bool :=
  Double.eq x.x y.x && Double.eq x.y y.y && Double.eq x.radius_x y.radius_x &&
  Double.eq x.radius_y y.radius_y && Double.eq x.tilt y.tilt && Double.eq x.angle y.angle &&
  Double.eq x.x0 y.x0 && Double.eq x.y0 y.y0

/-- Modelled from the spec: the class `C_wall3d_section`, declared in `cpp_and_bmad.h`, a
header that is not among the sources. The fields are those `operator==` reads. -/
structure C_wall3d_section where
  (type : Int)
  (s : Double)
  (s_spline : Real_Array)
  (n_slice_spline : Int)
  (v : List C_wall3d_vertex)
  (n_vertex_input : Int)

/-- `bool operator== (const C_wall3d_section& x, const C_wall3d_section& y)`. -/
def C_wall3d_section.operator_eq (x y : C_wall3d_section) : Bool :=
  (x.type == y.type) && Double.eq x.s y.s && is_all_equal Double.eq x.s_spline y.s_spline &&
  (x.n_slice_spline == y.n_slice_spline) && is_all_equal C_wall3d_vertex.operator_eq x.v y.v &&
  (x.n_vertex_input == y.n_vertex_input)

/-- Modelled from the spec: the class `C_wall3d`, declared in `cpp_and_bmad.h`, a
header that is not among the sources. The fields are those `operator==` reads. -/
structure C_wall3d where
  (section_ : List C_wall3d_section)

/-- `bool operator== (const C_wall3d& x, const C_wall3d& y)`. -/
def C_wall3d.operator_eq (x y : C_wall3d) : Bool :=
  is_all_equal C_wall3d_section.operator_eq x.section_ y.section_

/-- Modelled from the spec: the class `C_control`, declared in `cpp_and_bmad.h`, a
header that is not among the sources. The fields are those `operator==` reads. -/
structure C_control where
  (coef : Double)
  (ix_lord ix_slave ix_attrib : Int)

/-- `bool operator== (const C_control& x, const C_control& y)`. -/
def C_control.operator_eq (x y : C_control) : Bool :=
  Double.eq x.coef y.coef && (x.ix_lord == y.ix_lord) && (x.ix_slave == y.ix_slave) &&
  (x.ix_attrib == y.ix_attrib)

/-- Modelled from the spec: the class `C_lat_param`, declared in `cpp_and_bmad.h`, a
header that is not among the sources. The fields are those `operator==` reads. -/
structure C_lat_param where
  (n_part total_length unstable_factor : Double)
  (t1_with_RF t1_no_RF : Real_Matrix)
  (particle ix_lost end_lost_at lattice_type ixx : Int)
  (stable aperture_limit_on lost : Bool)

/-- `bool operator== (const C_lat_param& x, const C_lat_param& y)`. -/
def C_lat_param.operator_eq (x y : C_lat_param) : Bool :=
  Double.eq x.n_part y.n_part && Double.eq x.total_length y.total_length &&
  Double.eq x.unstable_factor y.unstable_factor &&
  is_all_equal_Real_Matrix x.t1_with_RF y.t1_with_RF &&
  is_all_equal_Real_Matrix x.t1_no_RF y.t1_no_RF && (x.particle == y.particle) &&
  (x.ix_lost == y.ix_lost) && (x.end_lost_at == y.end_lost_at) &&
  (x.lattice_type == y.lattice_type) && (x.ixx == y.ixx) && (x.stable == y.stable) &&
  (x.aperture_limit_on == y.aperture_limit_on) && (x.lost == y.lost)

/-- Modelled from the spec: the class `C_anormal_mode`, declared in `cpp_and_bmad.h`, a
header that is not among the sources. The fields are those `operator==` reads. -/
structure C_anormal_mode where
  (emittance synch_int4 synch_int5 j_damp alpha_damp chrom tune : Double)

/-- `bool operator== (const C_anormal_mode& x, const C_anormal_mode& y)`. -/
def C_anormal_mode.operator_eq (x y : C_anormal_mode) : Bool :=
  Double.eq x.emittance y.emittance && Double.eq x.synch_int4 y.synch_int4 &&
  Double.eq x.synch_int5 y.synch_int5 && Double.eq x.j_damp y.j_damp &&
  Double.eq x.alpha_damp y.alpha_damp && Double.eq x.chrom y.chrom && Double.eq x.tune y.tune

/-- Modelled from the spec: the class `C_linac_mode`, declared in `cpp_and_bmad.h`, a
header that is not among the sources. The fields are those `operator==` reads. -/
structure C_linac_mode where
  (i2_E4 i3_E7 i5a_E6 i5b_E6 sig_E1 a_emittance_end b_emittance_end : Double)

/-- `bool operator== (const C_linac_mode& x, const C_linac_mode& y)`. -/
def C_linac_mode.operator_eq (x y : C_linac_mode) : Bool :=
  Double.eq x.i2_E4 y.i2_E4 && Double.eq x.i3_E7 y.i3_E7 && Double.eq x.i5a_E6 y.i5a_E6 &&
  Double.eq x.i5b_E6 y.i5b_E6 && Double.eq x.sig_E1 y.sig_E1 &&
  Double.eq x.a_emittance_end y.a_emittance_end && Double.eq x.b_emittance_end y.b_emittance_end

/-- Modelled from the spec: the class `C_normal_modes`, declared in `cpp_and_bmad.h`, a
header that is not among the sources. The fields are those `operator==` reads. -/
structure C_normal_modes where
  (synch_int : Real_Array)
  (sigE_E sig_z e_loss pz_aperture : Double)
  (a b z : C_anormal_mode)
  (lin : C_linac_mode)

/-- `bool operator== (const C_normal_modes& x, const C_normal_modes& y)`. Its
first operand is `is_all_equal(x.synch_int == y.synch_int)`: the `valarray`
comparison, then the one-argument boolean reduction. -/
def C_normal_modes.operator_eq (x y : C_normal_modes) : Option Bool :=
  (valarray_eq Double.eq x.synch_int y.synch_int).map fun bs =>
    is_all_equal_Bool_Array bs &&
      Double.eq x.sigE_E y.sigE_E && Double.eq x.sig_z y.sig_z && Double.eq x.e_loss y.e_loss &&
      Double.eq x.pz_aperture y.pz_aperture && C_anormal_mode.operator_eq x.a y.a &&
      C_anormal_mode.operator_eq x.b y.b && C_anormal_mode.operator_eq x.z y.z &&
      C_linac_mode.operator_eq x.lin y.lin

/-- Modelled from the spec: the class `C_bmad_com`, declared in `cpp_and_bmad.h`, a
header that is not among the sources. The fields are those `operator==` reads. -/
structure C_bmad_com where
  (d_orb : Real_Array)
  (max_aperture_limit grad_loss_sr_wake rel_tolerance abs_tolerance : Double)
  (rel_tol_adaptive_tracking abs_tol_adaptive_tracking : Double)
  (taylor_order default_integ_order : Int)
  (default_ds_step : Double)
  (canonical_coords : Bool)
  (significant_longitudinal_length : Double)
  (sr_wakes_on lr_wakes_on mat6_track_symmetric auto_bookkeeper trans_space_charge_on : Bool)
  (coherent_synch_rad_on spin_tracking_on radiation_damping_on : Bool)
  (radiation_fluctuations_on compute_ref_energy conserve_taylor_maps : Bool)

/-- `bool operator== (const C_bmad_com& x, const C_bmad_com& y)`. -/
def C_bmad_com.operator_eq (x y : C_bmad_com) : Bool :=
  is_all_equal Double.eq x.d_orb y.d_orb &&
  Double.eq x.max_aperture_limit y.max_aperture_limit &&
  Double.eq x.grad_loss_sr_wake y.grad_loss_sr_wake &&
  Double.eq x.rel_tolerance y.rel_tolerance && Double.eq x.abs_tolerance y.abs_tolerance &&
  Double.eq x.rel_tol_adaptive_tracking y.rel_tol_adaptive_tracking &&
  Double.eq x.abs_tol_adaptive_tracking y.abs_tol_adaptive_tracking &&
  (x.taylor_order == y.taylor_order) && (x.default_integ_order == y.default_integ_order) &&
  Double.eq x.default_ds_step y.default_ds_step && (x.canonical_coords == y.canonical_coords) &&
  Double.eq x.significant_longitudinal_length y.significant_longitudinal_length &&
  (x.sr_wakes_on == y.sr_wakes_on) && (x.lr_wakes_on == y.lr_wakes_on) &&
  (x.mat6_track_symmetric == y.mat6_track_symmetric) &&
  (x.auto_bookkeeper == y.auto_bookkeeper) &&
  (x.trans_space_charge_on == y.trans_space_charge_on) &&
  (x.coherent_synch_rad_on == y.coherent_synch_rad_on) &&
  (x.spin_tracking_on == y.spin_tracking_on) &&
  (x.radiation_damping_on == y.radiation_damping_on) &&
  (x.radiation_fluctuations_on == y.radiation_fluctuations_on) &&
  (x.compute_ref_energy == y.compute_ref_energy) &&
  (x.conserve_taylor_maps == y.conserve_taylor_maps)

/-- Modelled from the spec: the class `C_em_field`, declared in `cpp_and_bmad.h`, a
header that is not among the sources. The fields are those `operator==` reads. -/
structure C_em_field where
  (E B : Real_Array)
  (dE dB : Real_Matrix)

/-- `bool operator== (const C_em_field& x, const C_em_field& y)`. -/
def C_em_field.operator_eq (x y : C_em_field) : Bool :=
  is_all_equal Double.eq x.E y.E && is_all_equal Double.eq x.B y.B &&
  is_all_equal_Real_Matrix x.dE y.dE && is_all_equal_Real_Matrix x.dB y.dB

/-- Modelled from the spec: the class `C_ele`, declared in `cpp_and_bmad.h`, a
header that is not among the sources. The fields are those `operator==` reads. -/
structure C_ele where
  (name type alias_ component_name : String)
  (x y : C_xy_disp)
  (a b z : C_twiss)
  (floor : C_floor_position)
  (value gen0 vec0 : Real_Array)
  (mat6 c_mat : Real_Matrix)
  (gamma_c s ref_time : Double)
  (r : Real_Matrix)
  (a_pole b_pole const_arr : Real_Array)
  (descrip : String)
  (taylor : List C_taylor)
  (wig_term : List C_wig_term)
  (rf : C_rf)
  (key sub_key lord_status slave_status ix_value n_slave ix1_slave ix2_slave : Int)
  (n_lord ic1_lord ic2_lord ix_pointer ixx ix_ele mat6_calc_method tracking_method : Int)
  (field_calc ref_orbit taylor_order aperture_at aperture_type attribute_status : Int)
  (symplectify mode_flip multipoles_on map_with_offsets field_master is_on old_is_on : Bool)
  (logic : Bool)
  (on_a_girder csr_calc_on offset_moves_aperture : Bool)

/-- `bool operator== (const C_ele& x, const C_ele& y)`. -/
def C_ele.operator_eq (x y : C_ele) : Bool :=
  (x.name == y.name) && (x.type == y.type) && (x.alias_ == y.alias_) &&
  (x.component_name == y.component_name) && C_xy_disp.operator_eq x.x y.x &&
  C_xy_disp.operator_eq x.y y.y && C_twiss.operator_eq x.a y.a && C_twiss.operator_eq x.b y.b &&
  C_twiss.operator_eq x.z y.z && C_floor_position.operator_eq x.floor y.floor &&
  is_all_equal Double.eq x.value y.value && is_all_equal Double.eq x.gen0 y.gen0 &&
  is_all_equal Double.eq x.vec0 y.vec0 && is_all_equal_Real_Matrix x.mat6 y.mat6 &&
  is_all_equal_Real_Matrix x.c_mat y.c_mat && Double.eq x.gamma_c y.gamma_c &&
  Double.eq x.s y.s && Double.eq x.ref_time y.ref_time && is_all_equal_Real_Matrix x.r y.r &&
  is_all_equal Double.eq x.a_pole y.a_pole && is_all_equal Double.eq x.b_pole y.b_pole &&
  is_all_equal Double.eq x.const_arr y.const_arr && (x.descrip == y.descrip) &&
  is_all_equal C_taylor.operator_eq x.taylor y.taylor &&
  is_all_equal C_wig_term.operator_eq x.wig_term y.wig_term && C_rf.operator_eq x.rf y.rf &&
  (x.key == y.key) && (x.sub_key == y.sub_key) && (x.lord_status == y.lord_status) &&
  (x.slave_status == y.slave_status) && (x.ix_value == y.ix_value) &&
  (x.n_slave == y.n_slave) && (x.ix1_slave == y.ix1_slave) && (x.ix2_slave == y.ix2_slave) &&
  (x.n_lord == y.n_lord) && (x.ic1_lord == y.ic1_lord) && (x.ic2_lord == y.ic2_lord) &&
  (x.ix_pointer == y.ix_pointer) && (x.ixx == y.ixx) && (x.ix_ele == y.ix_ele) &&
  (x.mat6_calc_method == y.mat6_calc_method) && (x.tracking_method == y.tracking_method) &&
  (x.field_calc == y.field_calc) && (x.ref_orbit == y.ref_orbit) &&
  (x.taylor_order == y.taylor_order) && (x.aperture_at == y.aperture_at) &&
  (x.aperture_type == y.aperture_type) && (x.attribute_status == y.attribute_status) &&
  (x.symplectify == y.symplectify) && (x.mode_flip == y.mode_flip) &&
  (x.multipoles_on == y.multipoles_on) && (x.map_with_offsets == y.map_with_offsets) &&
  (x.field_master == y.field_master) && (x.is_on == y.is_on) && (x.old_is_on == y.old_is_on) &&
  (x.logic == y.logic) && (x.on_a_girder == y.on_a_girder) &&
  (x.csr_calc_on == y.csr_calc_on) && (x.offset_moves_aperture == y.offset_moves_aperture)

/-- Modelled from the spec: the class `C_branch`, declared in `cpp_and_bmad.h`, a
header that is not among the sources. The fields are those `operator==` reads. -/
structure C_branch where
  (key : Int)
  (name : String)
  (ix_branch ix_from_branch ix_from_ele n_ele_track n_ele_max : Int)
  (ele : List C_ele)
  (wall3d : C_wall3d)
  (param : C_lat_param)

/-- `bool operator== (const C_branch& x, const C_branch& y)`. The operand
`is_all_equal(x.ele == y.ele)` is the `valarray` comparison followed by the
one-argument boolean reduction; `&&` evaluates it only when the seven
comparisons before it all hold. -/
def C_branch.operator_eq (x y : C_branch) : Option Bool :=
  if
      (x.key == y.key) && (x.name == y.name) && (x.ix_branch == y.ix_branch) &&
      (x.ix_from_branch == y.ix_from_branch) && (x.ix_from_ele == y.ix_from_ele) &&
      (x.n_ele_track == y.n_ele_track) && (x.n_ele_max == y.n_ele_max)
  then
    (valarray_eq C_ele.operator_eq x.ele y.ele).map fun bs =>
      is_all_equal_Bool_Array bs && C_wall3d.operator_eq x.wall3d y.wall3d &&
        C_lat_param.operator_eq x.param y.param
  else some false

/-- Modelled from the spec: the class `C_mode_info`, declared in `cpp_and_bmad.h`, a
header that is not among the sources. The fields are those `operator==` reads. -/
structure C_mode_info where
  (tune emit chrom : Double)

/-- `bool operator== (const C_mode_info& x, const C_mode_info& y)`. -/
def C_mode_info.operator_eq (x y : C_mode_info) : Bool :=
  Double.eq x.tune y.tune && Double.eq x.emit y.emit && Double.eq x.chrom y.chrom

/-- Modelled from the spec: the class `C_lat`, declared in `cpp_and_bmad.h`, a
header that is not among the sources. The fields are those `operator==` reads. -/
structure C_lat where
  (name lattice input_file_name title : String)
  (a b z : C_mode_info)
  (param : C_lat_param)
  (version n_ele_track n_ele_max n_control_max n_ic_max input_taylor_order : Int)
  (ele_init : C_ele)
  (control : List C_control)
  (ic : Int_Array)
  (ele : List C_ele)

/-- The loop body `is_true = is_true && (x.ele[i] == y.ele[i])` of the lattice
comparison. `&&` evaluates the two subscripts only while `is_true` holds; a
subscript outside either sequence is undefined (`none`). -/
def C_lat.ele_step (x y : C_lat) (is_true : Option Bool) (i : Nat) : Option Bool :=
  match is_true with
  | none => none
  | some false => some false
  | some true =>
    match x.ele[i]?, y.ele[i]? with
    | some a, some b => some (C_ele.operator_eq a b)
    | _, _ => none

/-- `bool operator== (const C_lat& x, const C_lat& y)`. Sixteen statements
`is_true = is_true && ...`, then the plain assignment
`is_true = is_all_equal(x.ic, y.ic)`, then the loop
`for (int i = 0; i < x.n_ele_max+1; i++)` over the elements. -/
def C_lat.operator_eq (x y : C_lat) : Option Bool :=
  let is_true := true
  let is_true := is_true && (x.name == y.name)
  let is_true := is_true && (x.lattice == y.lattice)
  let is_true := is_true && (x.input_file_name == y.input_file_name)
  let is_true := is_true && (x.title == y.title)
  let is_true := is_true && C_mode_info.operator_eq x.a y.a
  let is_true := is_true && C_mode_info.operator_eq x.b y.b
  let is_true := is_true && C_mode_info.operator_eq x.z y.z
  let is_true := is_true && C_lat_param.operator_eq x.param y.param
  let is_true := is_true && (x.version == y.version)
  let is_true := is_true && (x.n_ele_track == y.n_ele_track)
  let is_true := is_true && (x.n_ele_max == y.n_ele_max)
  let is_true := is_true && (x.n_control_max == y.n_control_max)
  let is_true := is_true && (x.n_ic_max == y.n_ic_max)
  let is_true := is_true && (x.input_taylor_order == y.input_taylor_order)
  let is_true := is_true && C_ele.operator_eq x.ele_init y.ele_init
  let is_true := is_true && is_all_equal C_control.operator_eq x.control y.control
  let is_true := is_all_equal Int_eq x.ic y.ic
  (List.range (x.n_ele_max + 1).toNat).foldl (C_lat.ele_step x y) (some is_true)

/-! ## Records free of NaN, and sample records -/

/-- No entry is a NaN. -/
def Real_Array.noNaN (v : Real_Array) : Bool := v.all fun d => !d.isNaN

/-- No cell is a NaN. -/
def Real_Matrix.noNaN (m : Real_Matrix) : Bool := m.all Real_Array.noNaN

/-- No `double` inside the record, at any depth, is a NaN. -/
def C_coord.noNaN (x : C_coord) : Bool :=
  Real_Array.noNaN x.vec && !x.s.isNaN && !x.t.isNaN && x.spin1.noNaN && x.spin2.noNaN &&
  !x.e_field_x.isNaN && !x.e_field_y.isNaN && !x.phase_x.isNaN && !x.phase_y.isNaN

/-- No `double` inside the record, at any depth, is a NaN. -/
def C_twiss.noNaN (x : C_twiss) : Bool :=
  !x.beta.isNaN && !x.alpha.isNaN && !x.gamma.isNaN && !x.phi.isNaN && !x.eta.isNaN &&
  !x.etap.isNaN && !x.sigma.isNaN && !x.sigma_p.isNaN && !x.emit.isNaN && !x.norm_emit.isNaN

/-- No `double` inside the record, at any depth, is a NaN. -/
def C_xy_disp.noNaN (x : C_xy_disp) : Bool :=
  !x.eta.isNaN && !x.etap.isNaN

/-- No `double` inside the record, at any depth, is a NaN. -/
def C_floor_position.noNaN (x : C_floor_position) : Bool :=
  !x.x.isNaN && !x.y.isNaN && !x.z.isNaN && !x.theta.isNaN && !x.phi.isNaN && !x.psi.isNaN

/-- No `double` inside the record, at any depth, is a NaN. -/
def C_wig_term.noNaN (x : C_wig_term) : Bool :=
  !x.coef.isNaN && !x.kx.isNaN && !x.ky.isNaN && !x.kz.isNaN && !x.phi_z.isNaN

/-- No `double` inside the record, at any depth, is a NaN. -/
def C_taylor_term.noNaN (x : C_taylor_term) : Bool :=
  !x.coef.isNaN

/-- No `double` inside the record, at any depth, is a NaN. -/
def C_taylor.noNaN (x : C_taylor) : Bool :=
  !x.ref.isNaN && x.term.all C_taylor_term.noNaN

/-- No `double` inside the record, at any depth, is a NaN. -/
def C_rf_wake_sr_table.noNaN (x : C_rf_wake_sr_table) : Bool :=
  !x.z.isNaN && !x.longitudinal.isNaN && !x.transverse.isNaN

/-- No `double` inside the record, at any depth, is a NaN. -/
def C_rf_wake_sr_mode.noNaN (x : C_rf_wake_sr_mode) : Bool :=
  !x.amp.isNaN && !x.damp.isNaN && !x.k.isNaN && !x.phi.isNaN && !x.b_sin.isNaN &&
  !x.b_cos.isNaN && !x.a_sin.isNaN && !x.a_cos.isNaN

/-- No `double` inside the record, at any depth, is a NaN. -/
def C_rf_wake_lr.noNaN (x : C_rf_wake_lr) : Bool :=
  !x.freq.isNaN && !x.freq_in.isNaN && !x.R_over_Q.isNaN && !x.Q.isNaN && !x.angle.isNaN &&
  !x.b_sin.isNaN && !x.b_cos.isNaN && !x.a_sin.isNaN && !x.a_cos.isNaN && !x.t_ref.isNaN

/-- No `double` inside the record, at any depth, is a NaN. -/
def C_rf_wake.noNaN (x : C_rf_wake) : Bool :=
  x.sr_table.all C_rf_wake_sr_table.noNaN && x.sr_mode_long.all C_rf_wake_sr_mode.noNaN &&
  x.sr_mode_trans.all C_rf_wake_sr_mode.noNaN && x.lr.all C_rf_wake_lr.noNaN

/-- No `double` inside the record, at any depth, is a NaN. -/
def C_rf_field_mode_term.noNaN (x : C_rf_field_mode_term) : Bool :=
  x.e.noNaN && x.b.noNaN

/-- No `double` inside the record, at any depth, is a NaN. -/
def C_rf_field_mode.noNaN (x : C_rf_field_mode) : Bool :=
  !x.freq.isNaN && !x.f_damp.isNaN && !x.theta_t0.isNaN && !x.stored_energy.isNaN &&
  !x.phi_0.isNaN && !x.dz.isNaN && x.term.all C_rf_field_mode_term.noNaN

/-- No `double` inside the record, at any depth, is a NaN. -/
def C_rf_field.noNaN (x : C_rf_field) : Bool :=
  x.mode.all C_rf_field_mode.noNaN

/-- No `double` inside the record, at any depth, is a NaN. -/
def C_rf.noNaN (x : C_rf) : Bool :=
  C_rf_wake.noNaN x.wake && C_rf_field.noNaN x.field

/-- No `double` inside the record, at any depth, is a NaN. -/
def C_wall3d_vertex.noNaN (x : C_wall3d_vertex) : Bool :=
  !x.x.isNaN && !x.y.isNaN && !x.radius_x.isNaN && !x.radius_y.isNaN && !x.tilt.isNaN &&
  !x.angle.isNaN && !x.x0.isNaN && !x.y0.isNaN

/-- No `double` inside the record, at any depth, is a NaN. -/
def C_wall3d_section.noNaN (x : C_wall3d_section) : Bool :=
  !x.s.isNaN && Real_Array.noNaN x.s_spline && x.v.all C_wall3d_vertex.noNaN

/-- No `double` inside the record, at any depth, is a NaN. -/
def C_wall3d.noNaN (x : C_wall3d) : Bool :=
  x.section_.all C_wall3d_section.noNaN

/-- No `double` inside the record, at any depth, is a NaN. -/
def C_control.noNaN (x : C_control) : Bool :=
  !x.coef.isNaN

/-- No `double` inside the record, at any depth, is a NaN. -/
def C_lat_param.noNaN (x : C_lat_param) : Bool :=
  !x.n_part.isNaN && !x.total_length.isNaN && !x.unstable_factor.isNaN &&
  Real_Matrix.noNaN x.t1_with_RF && Real_Matrix.noNaN x.t1_no_RF

/-- No `double` inside the record, at any depth, is a NaN. -/
def C_anormal_mode.noNaN (x : C_anormal_mode) : Bool :=
  !x.emittance.isNaN && !x.synch_int4.isNaN && !x.synch_int5.isNaN && !x.j_damp.isNaN &&
  !x.alpha_damp.isNaN && !x.chrom.isNaN && !x.tune.isNaN

/-- No `double` inside the record, at any depth, is a NaN. -/
def C_linac_mode.noNaN (x : C_linac_mode) : Bool :=
  !x.i2_E4.isNaN && !x.i3_E7.isNaN && !x.i5a_E6.isNaN && !x.i5b_E6.isNaN && !x.sig_E1.isNaN &&
  !x.a_emittance_end.isNaN && !x.b_emittance_end.isNaN

/-- No `double` inside the record, at any depth, is a NaN. -/
def C_normal_modes.noNaN (x : C_normal_modes) : Bool :=
  Real_Array.noNaN x.synch_int && !x.sigE_E.isNaN && !x.sig_z.isNaN && !x.e_loss.isNaN &&
  !x.pz_aperture.isNaN && C_anormal_mode.noNaN x.a && C_anormal_mode.noNaN x.b &&
  C_anormal_mode.noNaN x.z && C_linac_mode.noNaN x.lin

/-- No `double` inside the record, at any depth, is a NaN. -/
def C_bmad_com.noNaN (x : C_bmad_com) : Bool :=
  Real_Array.noNaN x.d_orb && !x.max_aperture_limit.isNaN && !x.grad_loss_sr_wake.isNaN &&
  !x.rel_tolerance.isNaN && !x.abs_tolerance.isNaN && !x.rel_tol_adaptive_tracking.isNaN &&
  !x.abs_tol_adaptive_tracking.isNaN && !x.default_ds_step.isNaN &&
  !x.significant_longitudinal_length.isNaN

/-- No `double` inside the record, at any depth, is a NaN. -/
def C_em_field.noNaN (x : C_em_field) : Bool :=
  Real_Array.noNaN x.E && Real_Array.noNaN x.B && Real_Matrix.noNaN x.dE &&
  Real_Matrix.noNaN x.dB

/-- No `double` inside the record, at any depth, is a NaN. -/
def C_ele.noNaN (x : C_ele) : Bool :=
  C_xy_disp.noNaN x.x && C_xy_disp.noNaN x.y && C_twiss.noNaN x.a && C_twiss.noNaN x.b &&
  C_twiss.noNaN x.z && C_floor_position.noNaN x.floor && Real_Array.noNaN x.value &&
  Real_Array.noNaN x.gen0 && Real_Array.noNaN x.vec0 && Real_Matrix.noNaN x.mat6 &&
  Real_Matrix.noNaN x.c_mat && !x.gamma_c.isNaN && !x.s.isNaN && !x.ref_time.isNaN &&
  Real_Matrix.noNaN x.r && Real_Array.noNaN x.a_pole && Real_Array.noNaN x.b_pole &&
  Real_Array.noNaN x.const_arr && x.taylor.all C_taylor.noNaN &&
  x.wig_term.all C_wig_term.noNaN && C_rf.noNaN x.rf

/-- No `double` inside the record, at any depth, is a NaN. -/
def C_branch.noNaN (x : C_branch) : Bool :=
  x.ele.all C_ele.noNaN && C_wall3d.noNaN x.wall3d && C_lat_param.noNaN x.param

/-- No `double` inside the record, at any depth, is a NaN. -/
def C_mode_info.noNaN (x : C_mode_info) : Bool :=
  !x.tune.isNaN && !x.emit.isNaN && !x.chrom.isNaN

/-- A `C_twiss` with every number zero, every flag false, every string and
sequence empty. -/
def C_twiss.blank : C_twiss :=
  { beta := Double.zero, alpha := Double.zero, gamma := Double.zero, phi := Double.zero,
    eta := Double.zero, etap := Double.zero, sigma := Double.zero, sigma_p := Double.zero,
    emit := Double.zero, norm_emit := Double.zero }

/-- A `C_xy_disp` with every number zero, every flag false, every string and
sequence empty. -/
def C_xy_disp.blank : C_xy_disp :=
  { eta := Double.zero, etap := Double.zero }

/-- A `C_floor_position` with every number zero, every flag false, every string and
sequence empty. -/
def C_floor_position.blank : C_floor_position :=
  { x := Double.zero, y := Double.zero, z := Double.zero, theta := Double.zero,
    phi := Double.zero, psi := Double.zero }

/-- A `C_rf_wake` with every number zero, every flag false, every string and
sequence empty. -/
def C_rf_wake.blank : C_rf_wake :=
  { sr_file := "", lr_file := "", sr_table := [], sr_mode_long := [], sr_mode_trans := [],
    lr := [] }

/-- A `C_rf_field` with every number zero, every flag false, every string and
sequence empty. -/
def C_rf_field.blank : C_rf_field :=
  { mode := [] }

/-- A `C_rf` with every number zero, every flag false, every string and
sequence empty. -/
def C_rf.blank : C_rf :=
  { wake := C_rf_wake.blank, field := C_rf_field.blank }

/-- A `C_wall3d` with every number zero, every flag false, every string and
sequence empty. -/
def C_wall3d.blank : C_wall3d :=
  { section_ := [] }

/-- A `C_lat_param` with every number zero, every flag false, every string and
sequence empty. -/
def C_lat_param.blank : C_lat_param :=
  { n_part := Double.zero, total_length := Double.zero, unstable_factor := Double.zero,
    t1_with_RF := [], t1_no_RF := [], particle := 0, ix_lost := 0, end_lost_at := 0,
    lattice_type := 0, ixx := 0, stable := false, aperture_limit_on := false, lost := false }

/-- A `C_anormal_mode` with every number zero, every flag false, every string and
sequence empty. -/
def C_anormal_mode.blank : C_anormal_mode :=
  { emittance := Double.zero, synch_int4 := Double.zero, synch_int5 := Double.zero,
    j_damp := Double.zero, alpha_damp := Double.zero, chrom := Double.zero, tune := Double.zero }

/-- A `C_linac_mode` with every number zero, every flag false, every string and
sequence empty. -/
def C_linac_mode.blank : C_linac_mode :=
  { i2_E4 := Double.zero, i3_E7 := Double.zero, i5a_E6 := Double.zero, i5b_E6 := Double.zero,
    sig_E1 := Double.zero, a_emittance_end := Double.zero, b_emittance_end := Double.zero }

/-- A `C_normal_modes` with every number zero, every flag false, every string and
sequence empty. -/
def C_normal_modes.blank : C_normal_modes :=
  { synch_int := [], sigE_E := Double.zero, sig_z := Double.zero, e_loss := Double.zero,
    pz_aperture := Double.zero, a := C_anormal_mode.blank, b := C_anormal_mode.blank,
    z := C_anormal_mode.blank, lin := C_linac_mode.blank }

/-- A `C_em_field` with every number zero, every flag false, every string and
sequence empty. -/
def C_em_field.blank : C_em_field :=
  { E := [], B := [], dE := [], dB := [] }

/-- A `C_ele` with every number zero, every flag false, every string and
sequence empty. -/
def C_ele.blank : C_ele :=
  { name := "", type := "", alias_ := "", component_name := "", x := C_xy_disp.blank,
    y := C_xy_disp.blank, a := C_twiss.blank, b := C_twiss.blank, z := C_twiss.blank,
    floor := C_floor_position.blank, value := [], gen0 := [], vec0 := [], mat6 := [],
    c_mat := [], gamma_c := Double.zero, s := Double.zero, ref_time := Double.zero, r := [],
    a_pole := [], b_pole := [], const_arr := [], descrip := "", taylor := [], wig_term := [],
    rf := C_rf.blank, key := 0, sub_key := 0, lord_status := 0, slave_status := 0,
    ix_value := 0, n_slave := 0, ix1_slave := 0, ix2_slave := 0, n_lord := 0, ic1_lord := 0,
    ic2_lord := 0, ix_pointer := 0, ixx := 0, ix_ele := 0, mat6_calc_method := 0,
    tracking_method := 0, field_calc := 0, ref_orbit := 0, taylor_order := 0, aperture_at := 0,
    aperture_type := 0, attribute_status := 0, symplectify := false, mode_flip := false,
    multipoles_on := false, map_with_offsets := false, field_master := false, is_on := false,
    old_is_on := false, logic := false, on_a_girder := false, csr_calc_on := false,
    offset_moves_aperture := false }

/-- A `C_branch` with every number zero, every flag false, every string and
sequence empty. -/
def C_branch.blank : C_branch :=
  { key := 0, name := "", ix_branch := 0, ix_from_branch := 0, ix_from_ele := 0,
    n_ele_track := 0, n_ele_max := 0, ele := [], wall3d := C_wall3d.blank,
    param := C_lat_param.blank }

/-- A `C_mode_info` with every number zero, every flag false, every string and
sequence empty. -/
def C_mode_info.blank : C_mode_info :=
  { tune := Double.zero, emit := Double.zero, chrom := Double.zero }

/-- A `C_lat` with every number zero, every flag false, every string and
sequence empty. -/
def C_lat.blank : C_lat :=
  { name := "", lattice := "", input_file_name := "", title := "", a := C_mode_info.blank,
    b := C_mode_info.blank, z := C_mode_info.blank, param := C_lat_param.blank, version := 0,
    n_ele_track := 0, n_ele_max := 0, n_control_max := 0, n_ic_max := 0,
    input_taylor_order := 0, ele_init := C_ele.blank, control := [], ic := [], ele := [] }

/-! ## Properties stated in the words of the specification, and sample inputs -/

/-- In the words of the specification: the two sequences have equal length
and pointwise-equal entries under the element comparison `eq`. -/
def SameSeq {T : Type} (eq : T → T → Bool) (v1 v2 : List T) : Prop :=
  v1.length = v2.length ∧
    ∀ i (h1 : i < v1.length) (h2 : i < v2.length), eq v1[i] v2[i] = true

/-- In the words of the specification: the two ragged tables have equal outer
length, equal length in every row, and equal cells. -/
def SameTable (m1 m2 : Real_Matrix) : Prop :=
  m1.length = m2.length ∧
    ∀ i (h1 : i < m1.length) (h2 : i < m2.length), SameSeq Double.eq m1[i] m2[i]

/-- In the words of the specification: two elements agree field by field. Every
scalar and string field is equal (a `double` under its `==`), every nested
record is equal under its own predicate, and every sequence field has equal
length and pointwise-equal entries. -/
def C_ele.FieldwiseEqual (x y : C_ele) : Prop :=
  x.name = y.name ∧ x.type = y.type ∧ x.alias_ = y.alias_ ∧
  x.component_name = y.component_name ∧ C_xy_disp.operator_eq x.x y.x = true ∧
  C_xy_disp.operator_eq x.y y.y = true ∧ C_twiss.operator_eq x.a y.a = true ∧
  C_twiss.operator_eq x.b y.b = true ∧ C_twiss.operator_eq x.z y.z = true ∧
  C_floor_position.operator_eq x.floor y.floor = true ∧ SameSeq Double.eq x.value y.value ∧
  SameSeq Double.eq x.gen0 y.gen0 ∧ SameSeq Double.eq x.vec0 y.vec0 ∧ SameTable x.mat6 y.mat6 ∧
  SameTable x.c_mat y.c_mat ∧ Double.eq x.gamma_c y.gamma_c = true ∧ Double.eq x.s y.s = true ∧
  Double.eq x.ref_time y.ref_time = true ∧ SameTable x.r y.r ∧
  SameSeq Double.eq x.a_pole y.a_pole ∧ SameSeq Double.eq x.b_pole y.b_pole ∧
  SameSeq Double.eq x.const_arr y.const_arr ∧ x.descrip = y.descrip ∧
  SameSeq C_taylor.operator_eq x.taylor y.taylor ∧
  SameSeq C_wig_term.operator_eq x.wig_term y.wig_term ∧ C_rf.operator_eq x.rf y.rf = true ∧
  x.key = y.key ∧ x.sub_key = y.sub_key ∧ x.lord_status = y.lord_status ∧
  x.slave_status = y.slave_status ∧ x.ix_value = y.ix_value ∧ x.n_slave = y.n_slave ∧
  x.ix1_slave = y.ix1_slave ∧ x.ix2_slave = y.ix2_slave ∧ x.n_lord = y.n_lord ∧
  x.ic1_lord = y.ic1_lord ∧ x.ic2_lord = y.ic2_lord ∧ x.ix_pointer = y.ix_pointer ∧
  x.ixx = y.ixx ∧ x.ix_ele = y.ix_ele ∧ x.mat6_calc_method = y.mat6_calc_method ∧
  x.tracking_method = y.tracking_method ∧ x.field_calc = y.field_calc ∧
  x.ref_orbit = y.ref_orbit ∧ x.taylor_order = y.taylor_order ∧ x.aperture_at = y.aperture_at ∧
  x.aperture_type = y.aperture_type ∧ x.attribute_status = y.attribute_status ∧
  x.symplectify = y.symplectify ∧ x.mode_flip = y.mode_flip ∧
  x.multipoles_on = y.multipoles_on ∧ x.map_with_offsets = y.map_with_offsets ∧
  x.field_master = y.field_master ∧ x.is_on = y.is_on ∧ x.old_is_on = y.old_is_on ∧
  x.logic = y.logic ∧ x.on_a_girder = y.on_a_girder ∧ x.csr_calc_on = y.csr_calc_on ∧
  x.offset_moves_aperture = y.offset_moves_aperture

/-- Some scalar or string field of the two elements differs (a `double`
field differs when `==` on it is false). -/
def C_ele.ScalarFieldDiffers (x y : C_ele) : Prop :=
  x.name ≠ y.name ∨ x.type ≠ y.type ∨ x.alias_ ≠ y.alias_ ∨
  x.component_name ≠ y.component_name ∨ Double.eq x.gamma_c y.gamma_c = false ∨
  Double.eq x.s y.s = false ∨ Double.eq x.ref_time y.ref_time = false ∨ x.descrip ≠ y.descrip ∨
  x.key ≠ y.key ∨ x.sub_key ≠ y.sub_key ∨ x.lord_status ≠ y.lord_status ∨
  x.slave_status ≠ y.slave_status ∨ x.ix_value ≠ y.ix_value ∨ x.n_slave ≠ y.n_slave ∨
  x.ix1_slave ≠ y.ix1_slave ∨ x.ix2_slave ≠ y.ix2_slave ∨ x.n_lord ≠ y.n_lord ∨
  x.ic1_lord ≠ y.ic1_lord ∨ x.ic2_lord ≠ y.ic2_lord ∨ x.ix_pointer ≠ y.ix_pointer ∨
  x.ixx ≠ y.ixx ∨ x.ix_ele ≠ y.ix_ele ∨ x.mat6_calc_method ≠ y.mat6_calc_method ∨
  x.tracking_method ≠ y.tracking_method ∨ x.field_calc ≠ y.field_calc ∨
  x.ref_orbit ≠ y.ref_orbit ∨ x.taylor_order ≠ y.taylor_order ∨ x.aperture_at ≠ y.aperture_at ∨
  x.aperture_type ≠ y.aperture_type ∨ x.attribute_status ≠ y.attribute_status ∨
  x.symplectify ≠ y.symplectify ∨ x.mode_flip ≠ y.mode_flip ∨
  x.multipoles_on ≠ y.multipoles_on ∨ x.map_with_offsets ≠ y.map_with_offsets ∨
  x.field_master ≠ y.field_master ∨ x.is_on ≠ y.is_on ∨ x.old_is_on ≠ y.old_is_on ∨
  x.logic ≠ y.logic ∨ x.on_a_girder ≠ y.on_a_girder ∨ x.csr_calc_on ≠ y.csr_calc_on ∨
  x.offset_moves_aperture ≠ y.offset_moves_aperture

/-- A field record whose table `dE` holds a single NaN cell. -/
def C_em_field.withNaN : C_em_field := { C_em_field.blank with dE := [[Double.nan]] }

/-- An element whose `s` is a NaN. -/
def C_ele.withNaN : C_ele := { C_ele.blank with s := Double.nan }

/-- A lattice with one element and `n_ele_max = 0`. -/
def C_lat.single : C_lat := { C_lat.blank with ele := [C_ele.blank] }

/-- A lattice with `n_ele_max = 0` whose one element holds a NaN. -/
def C_lat.singleNaN : C_lat := { C_lat.blank with ele := [C_ele.withNaN] }

/-- Mode parameters whose `synch_int` holds one entry. -/
def C_normal_modes.oneInt : C_normal_modes :=
  { C_normal_modes.blank with synch_int := [Double.one] }

/-- A branch with one element. -/
def C_branch.oneEle : C_branch := { C_branch.blank with ele := [C_ele.blank] }

/-- A one-element lattice with `n_ele_max = -1`: the element loop runs no pass. -/
def C_lat.noneRead : C_lat := { C_lat.single with n_ele_max := -1 }

/-- A lattice with `n_ele_max = 0` whose one element has `key = 1`. -/
def C_lat.otherEle : C_lat := { C_lat.blank with ele := [{ C_ele.blank with key := 1 }] }

/-- A lattice with `n_ele_max = 0`, no element, and `ic = [1]`. -/
def C_lat.icOne : C_lat := { C_lat.blank with ic := [1] }

/-- A lattice with `n_ele_max = 0`, no element, and `ic = [2]`. -/
def C_lat.icTwo : C_lat := { C_lat.blank with ic := [2] }

/-! ## The diagnostic reporter -/

/-- What `cout << b` writes for a `bool`. -/
def show_bool (b : Bool) : String := if b then "1" else "0"

/-- The seventeen group flags of `ele_comp`, each with the label printed before
it, in the order of the `cout` statements. -/
def ele_comp_flags (x y : C_ele) : List (String × Bool) :=
  [ ("name: ", (x.name == y.name) && (x.type == y.type) &&
      (x.alias_ == y.alias_) && (x.component_name == y.component_name)),
    ("int:  ", Double.eq x.gamma_c y.gamma_c && Double.eq x.s y.s &&
      Double.eq x.ref_time y.ref_time &&
      (x.descrip == y.descrip) && C_rf.operator_eq x.rf y.rf &&
      (x.key == y.key) && (x.sub_key == y.sub_key) &&
      (x.lord_status == y.lord_status) && (x.slave_status == y.slave_status) &&
      (x.ix_value == y.ix_value) &&
      (x.n_slave == y.n_slave) && (x.ix1_slave == y.ix1_slave) &&
      (x.ix2_slave == y.ix2_slave) && (x.n_lord == y.n_lord) &&
      (x.ic1_lord == y.ic1_lord) && (x.ic2_lord == y.ic2_lord) &&
      (x.ix_pointer == y.ix_pointer) && (x.ixx == y.ixx) &&
      (x.ix_ele == y.ix_ele)),
    ("logic: ", (x.mat6_calc_method == y.mat6_calc_method) &&
      (x.tracking_method == y.tracking_method) && (x.field_calc == y.field_calc) &&
      (x.ref_orbit == y.ref_orbit) && (x.taylor_order == y.taylor_order) &&
      (x.aperture_at == y.aperture_at) && (x.aperture_type == y.aperture_type) &&
      (x.symplectify == y.symplectify) &&
      (x.mode_flip == y.mode_flip) && (x.multipoles_on == y.multipoles_on) &&
      (x.map_with_offsets == y.map_with_offsets) &&
      (x.field_master == y.field_master) &&
      (x.is_on == y.is_on) && (x.old_is_on == y.old_is_on) &&
      (x.logic == y.logic) && (x.on_a_girder == y.on_a_girder) &&
      (x.offset_moves_aperture == y.offset_moves_aperture)),
    ("xy:     ", C_xy_disp.operator_eq x.x y.x && C_xy_disp.operator_eq x.y y.y),
    ("abz:    ", C_twiss.operator_eq x.a y.a && C_twiss.operator_eq x.b y.b &&
      C_twiss.operator_eq x.z y.z),
    ("floor:  ", C_floor_position.operator_eq x.floor y.floor),
    ("value:  ", is_all_equal Double.eq x.value y.value),
    ("gen0:   ", is_all_equal Double.eq x.gen0 y.gen0),
    ("vec0:   ", is_all_equal Double.eq x.vec0 y.vec0),
    ("mat6:   ", is_all_equal_Real_Matrix x.mat6 y.mat6),
    ("c_mat:  ", is_all_equal_Real_Matrix x.c_mat y.c_mat),
    ("a_pole: ", is_all_equal Double.eq x.a_pole y.a_pole),
    ("b_pole: ", is_all_equal Double.eq x.b_pole y.b_pole),
    ("const:  ", is_all_equal Double.eq x.const_arr y.const_arr),
    ("taylor: ", is_all_equal C_taylor.operator_eq x.taylor y.taylor),
    ("wig:    ", is_all_equal C_wig_term.operator_eq x.wig_term y.wig_term),
    ("r:      ", is_all_equal_Real_Matrix x.r y.r) ]

/-- `void ele_comp (const C_ele& x, const C_ele& y)`: the lines it writes to
`cout`, one for each group, the label followed by the flag. -/
def ele_comp (x y : C_ele) : List String :=
  (ele_comp_flags x y).map fun p => p.1 ++ show_bool p.2

end Bmad

/-! ## The primary generator

The toolkit is outside the repository. Its particle gun is embedded as the
record of the arguments last passed to each of its setters, an event as the
list of primary-vertex requests made on it, and `G4Exception` as the list of
the calls made. `G4double` is an arbitrary ring `R`; `sin`, `cos`, the unit
`MeV` and the particle table are parameters. -/

namespace B4

/-- A `G4ThreeVector`. -/
structure G4ThreeVector (R : Type) where
  x : R
  y : R
  z : R

/-- A `G4Box`, by its three half-lengths. -/
structure G4Box (R : Type) where
  fDx : R
  fDy : R
  fDz : R

/-- `G4Box::GetZHalfLength()`. -/
def G4Box.GetZHalfLength {R : Type} (b : G4Box R) : R := b.fDz

/-- The solid of a logical volume: a box, or a solid of another class, kept
by the name of its class. -/
inductive G4VSolid (R : Type) where
  | box (b : G4Box R)
  | other (entityType : String)

/-- `dynamic_cast<G4Box*>(solid)`: the box, or null when the solid is none. -/
def dynamic_cast_G4Box {R : Type} : G4VSolid R → Option (G4Box R)
  | G4VSolid.box b => some b
  | G4VSolid.other _ => none

/-- A `G4LogicalVolume`: its name and its solid. -/
structure G4LogicalVolume (R : Type) where
  name : String
  solid : G4VSolid R

/-- `G4LogicalVolume::GetSolid()`. -/
def G4LogicalVolume.GetSolid {R : Type} (lv : G4LogicalVolume R) : G4VSolid R := lv.solid

/-- The `G4LogicalVolumeStore`: the registered volumes, in order. -/
abbrev G4LogicalVolumeStore (R : Type) := List (G4LogicalVolume R)

/-- `G4LogicalVolumeStore::GetVolume(name)`: the first volume of that name, or
null when the store has none. -/
def G4LogicalVolumeStore.GetVolume {R : Type} (store : G4LogicalVolumeStore R)
    (name : String) : Option (G4LogicalVolume R) :=
  store.find? fun lv => lv.name == name

/-- The severities of `G4Exception`. -/
inductive G4ExceptionSeverity where
  | FatalException
  | FatalErrorInArgument
  | RunMustBeAborted
  | EventMustBeAborted
  | JustWarning
  deriving DecidableEq, Repr

/-- One call of `G4Exception(origin, code, severity, description)`. -/
structure G4ExceptionCall where
  originOfException : String
  exceptionCode : String
  severity : G4ExceptionSeverity
  description : String
  deriving DecidableEq, Repr

/-- A `G4ParticleGun`: the particle count given at construction and the
argument last passed to each setter, `none` while the setter was never called. -/
structure G4ParticleGun (R P : Type) where
  NumberOfParticles : Int
  particle_definition : Option P
  particle_momentum_direction : Option (G4ThreeVector R)
  particle_energy : Option R
  particle_position : Option (G4ThreeVector R)

/-- `new G4ParticleGun(numberofparticles)`. -/
def G4ParticleGun.new {R P : Type} (numberofparticles : Int) : G4ParticleGun R P :=
  { NumberOfParticles := numberofparticles, particle_definition := none,
    particle_momentum_direction := none, particle_energy := none,
    particle_position := none }

/-- `G4ParticleGun::SetParticleDefinition`. -/
def G4ParticleGun.SetParticleDefinition {R P : Type} (gun : G4ParticleGun R P) (d : P) :
    G4ParticleGun R P :=
  { gun with particle_definition := some d }

/-- `G4ParticleGun::SetParticleMomentumDirection`. -/
def G4ParticleGun.SetParticleMomentumDirection {R P : Type} (gun : G4ParticleGun R P)
    (v : G4ThreeVector R) : G4ParticleGun R P :=
  { gun with particle_momentum_direction := some v }

/-- `G4ParticleGun::SetParticleEnergy`. -/
def G4ParticleGun.SetParticleEnergy {R P : Type} (gun : G4ParticleGun R P) (e : R) :
    G4ParticleGun R P :=
  { gun with particle_energy := some e }

/-- `G4ParticleGun::SetParticlePosition`. -/
def G4ParticleGun.SetParticlePosition {R P : Type} (gun : G4ParticleGun R P)
    (v : G4ThreeVector R) : G4ParticleGun R P :=
  { gun with particle_position := some v }

/-- A `G4Event`: the primary-vertex requests made on it, each with the state
of the gun at the request. -/
structure G4Event (R P : Type) where
  vertexRequests : List (G4ParticleGun R P)

/-- `G4ParticleGun::GeneratePrimaryVertex(evt)`: one more request on the event. -/
def G4ParticleGun.GeneratePrimaryVertex {R P : Type} (gun : G4ParticleGun R P)
    (evt : G4Event R P) : G4Event R P :=
  { vertexRequests := evt.vertexRequests ++ [gun] }

/-- What the generator takes from outside: `sin` and `cos` of `<cmath>`, the
unit `MeV` of `G4SystemOfUnits.hh`, and `G4ParticleTable::FindParticle`. -/
structure Externals (R P : Type) where
  sin : R → R
  cos : R → R
  MeV : R
  FindParticle : String → P

/-- The class `B4PrimaryGeneratorAction`: its one member, the gun. -/
structure B4PrimaryGeneratorAction (R P : Type) where
  fParticleGun : G4ParticleGun R P

/-- The constructor `B4PrimaryGeneratorAction(double in_particle_energy)`. -/
def B4PrimaryGeneratorAction.new {R P : Type} [Ring R] (env : Externals R P)
    (in_particle_energy : R) : B4PrimaryGeneratorAction R P :=
  let nofParticles : Int := 1
  let fParticleGun : G4ParticleGun R P := G4ParticleGun.new nofParticles
  let in_particle_name : String := "e-"
  let in_particle_angle : R := 0
  let particleDefinition := env.FindParticle in_particle_name
  let fParticleGun := fParticleGun.SetParticleDefinition particleDefinition
  let fParticleGun := fParticleGun.SetParticleMomentumDirection
    ⟨env.sin in_particle_angle, 0, env.cos in_particle_angle⟩
  let fParticleGun := fParticleGun.SetParticleEnergy (in_particle_energy * env.MeV)
  { fParticleGun := fParticleGun }

/-- The warning `GeneratePrimaries` passes to `G4Exception`. -/
def worldNotFound : G4ExceptionCall :=
  { originOfException := "B4PrimaryGeneratorAction::GeneratePrimaries()",
    exceptionCode := "MyCode0002",
    severity := G4ExceptionSeverity.JustWarning,
    description := "World volume of box not found.\n" ++
      "Perhaps you have changed geometry.\n" ++ "The gun will be place in the center." }

/-- What one call of `GeneratePrimaries` leaves behind: the generator, the
event, and the calls of `G4Exception` it made. -/
structure Outcome (R P : Type) where
  self : B4PrimaryGeneratorAction R P
  anEvent : G4Event R P
  exceptions : List G4ExceptionCall

/-- The method `B4PrimaryGeneratorAction::GeneratePrimaries(G4Event* anEvent)`, run
against the volume store as it stands at the call. -/
def B4PrimaryGeneratorAction.GeneratePrimaries {R P : Type} [Ring R]
    (self : B4PrimaryGeneratorAction R P) (store : G4LogicalVolumeStore R)
    (anEvent : G4Event R P) : Outcome R P :=
  let worldZHalfLength : R := 0
  let worlLV := G4LogicalVolumeStore.GetVolume store "World"
  let worldBox : Option (G4Box R) := none
  let worldBox := match worlLV with
    | some lv => dynamic_cast_G4Box lv.GetSolid
    | none => worldBox
  let (worldZHalfLength, exceptions) := match worldBox with
    | some box => (box.GetZHalfLength, [])
    | none => (worldZHalfLength, [worldNotFound])
  let fParticleGun := self.fParticleGun.SetParticlePosition ⟨0, 0, -worldZHalfLength⟩
  { self := { fParticleGun := fParticleGun },
    anEvent := fParticleGun.GeneratePrimaryVertex anEvent,
    exceptions := exceptions }

/-- In the words of the specification: the volume named "World" is absent from
the store, or its solid is not a box. -/
def WorldBoxMissing {R : Type} (store : G4LogicalVolumeStore R) : Prop :=
  G4LogicalVolumeStore.GetVolume store "World" = none ∨
    ∃ lv k, G4LogicalVolumeStore.GetVolume store "World" = some lv ∧
      lv.solid = G4VSolid.other k

/-- The generator after the toolkit's event loop has called `GeneratePrimaries`
once for each of the given events, each against the volume store as it stood
at that event. -/
def B4PrimaryGeneratorAction.afterEvents {R P : Type} [Ring R]
    (self : B4PrimaryGeneratorAction R P)
    (calls : List (G4LogicalVolumeStore R × G4Event R P)) : B4PrimaryGeneratorAction R P :=
  calls.foldl (fun g c => (g.GeneratePrimaries c.1 c.2).self) self

end B4

namespace Bmad

/-! ## Theorems -/

/-- The accumulating loop `t = t && p i` over `0 .. n-1` ends true exactly
when it started true and every `p i` held. -/
theorem foldl_and_range (p : Nat → Bool) (n : Nat) (b : Bool) :
    (List.range n).foldl (fun t i => t && p i) b = true ↔
      b = true ∧ ∀ i, i < n → p i = true := by
  induction n with
  | zero => simp
  | succ k ih =>
    rw [List.range_succ, List.foldl_append]
    simp only [List.foldl_cons, List.foldl_nil, Bool.and_eq_true, ih]
    constructor
    · rintro ⟨⟨hb, hk⟩, hp⟩
      refine ⟨hb, fun i hi => ?_⟩
      rcases Nat.lt_succ_iff_lt_or_eq.mp hi with h | h
      · exact hk i h
      · exact h ▸ hp
    · rintro ⟨hb, h⟩
      exact ⟨⟨hb, fun i hi => h i (Nat.lt_succ_of_lt hi)⟩, h k (Nat.lt_succ_self k)⟩

/-- Inside both sequences `eqAt` is the element comparison at that index. -/
theorem eqAt_of_lt {T : Type} (eq : T → T → Bool) (v1 v2 : List T) (i : Nat)
    (h1 : i < v1.length) (h2 : i < v2.length) :
    eqAt eq v1 v2 i = eq v1[i] v2[i] := by
  simp [eqAt, List.getElem?_eq_getElem h1, List.getElem?_eq_getElem h2]

/-- The generic helper is true exactly on sequences of one length whose
entries agree at every index. -/
theorem is_all_equal_iff {T : Type} (eq : T → T → Bool) (v1 v2 : List T) :
    is_all_equal eq v1 v2 = true ↔
      v1.length = v2.length ∧
        ∀ i (h1 : i < v1.length) (h2 : i < v2.length), eq v1[i] v2[i] = true := by
  unfold is_all_equal
  by_cases hlen : v1.length = v2.length
  · rw [if_neg (not_not.mpr hlen), foldl_and_range]
    constructor
    · rintro ⟨-, h⟩
      refine ⟨hlen, fun i h1 h2 => ?_⟩
      rw [← eqAt_of_lt eq v1 v2 i h1 h2]
      exact h i h1
    · rintro ⟨-, h⟩
      refine ⟨rfl, fun i hi => ?_⟩
      rw [eqAt_of_lt eq v1 v2 i hi (hlen ▸ hi)]
      exact h i hi (hlen ▸ hi)
  · simp [hlen]

/-- Sequences of different lengths never compare equal. -/
theorem is_all_equal_of_length_ne {T : Type} (eq : T → T → Bool) (v1 v2 : List T)
    (h : v1.length ≠ v2.length) : is_all_equal eq v1 v2 = false := by
  simp [is_all_equal, h]

/-- The inner loop over one row ends true exactly when it started true and the
cells of the row agree up to the length of the first row. -/
theorem is_all_equal_Real_Matrix_row_iff (r1 r2 : Real_Array) (b : Bool) :
    is_all_equal_Real_Matrix.row r1 r2 b = true ↔
      b = true ∧ ∀ j, j < r1.length → eqAt Double.eq r1 r2 j = true := by
  unfold is_all_equal_Real_Matrix.row
  exact foldl_and_range _ _ _

/-- The outer loop over a list of row indices ends true exactly when it
started true and every visited row has matching length and matching cells. -/
theorem is_all_equal_Real_Matrix_rows_iff (v1 v2 : Real_Matrix) (l : List Nat) (b : Bool) :
    is_all_equal_Real_Matrix.rows v1 v2 l b = true ↔
      b = true ∧ ∀ i, i ∈ l →
        (v1.getD i []).length = (v2.getD i []).length ∧
          ∀ j, j < (v1.getD i []).length →
            eqAt Double.eq (v1.getD i []) (v2.getD i []) j = true := by
  induction l generalizing b with
  | nil => simp [is_all_equal_Real_Matrix.rows]
  | cons i rest ih =>
    unfold is_all_equal_Real_Matrix.rows
    by_cases hlen : (v1.getD i []).length = (v2.getD i []).length
    · rw [if_neg (not_not.mpr hlen), ih, is_all_equal_Real_Matrix_row_iff]
      constructor
      · rintro ⟨⟨hb, hrow⟩, hrest⟩
        refine ⟨hb, fun k hk => ?_⟩
        rcases List.mem_cons.mp hk with h | h
        · subst h
          exact ⟨hlen, hrow⟩
        · exact hrest k h
      · rintro ⟨hb, h⟩
        exact ⟨⟨hb, (h i (List.mem_cons_self i rest)).2⟩,
          fun k hk => h k (List.mem_cons_of_mem i hk)⟩
    · rw [if_pos hlen]
      constructor
      · intro h
        cases h
      · rintro ⟨-, h⟩
        exact absurd (h i (List.mem_cons_self i rest)).1 hlen

/-- The table helper is true exactly on tables with the same number of rows,
the same length in every row, and agreeing cells. -/
theorem is_all_equal_Real_Matrix_iff (v1 v2 : Real_Matrix) :
    is_all_equal_Real_Matrix v1 v2 = true ↔
      v1.length = v2.length ∧
        ∀ i (h1 : i < v1.length) (h2 : i < v2.length),
          v1[i].length = v2[i].length ∧
            ∀ j (g1 : j < v1[i].length) (g2 : j < v2[i].length),
              Double.eq v1[i][j] v2[i][j] = true := by
  unfold is_all_equal_Real_Matrix
  by_cases hlen : v1.length = v2.length
  · rw [if_neg (not_not.mpr hlen), is_all_equal_Real_Matrix_rows_iff]
    constructor
    · rintro ⟨-, h⟩
      refine ⟨hlen, fun i h1 h2 => ?_⟩
      have hi := h i (List.mem_range.mpr h1)
      rw [List.getD_eq_getElem v1 [] h1, List.getD_eq_getElem v2 [] h2] at hi
      refine ⟨hi.1, fun j g1 g2 => ?_⟩
      rw [← eqAt_of_lt Double.eq v1[i] v2[i] j g1 g2]
      exact hi.2 j g1
    · rintro ⟨-, h⟩
      refine ⟨rfl, fun i hi => ?_⟩
      have h1 : i < v1.length := List.mem_range.mp hi
      have h2 : i < v2.length := hlen ▸ h1
      rw [List.getD_eq_getElem v1 [] h1, List.getD_eq_getElem v2 [] h2]
      refine ⟨(h i h1 h2).1, fun j g1 => ?_⟩
      have g2 : j < v2[i].length := (h i h1 h2).1 ▸ g1
      rw [eqAt_of_lt Double.eq v1[i] v2[i] j g1 g2]
      exact (h i h1 h2).2 j g1 g2
  · simp [hlen]

/-- The boolean reduction is true exactly when every entry is true. -/
theorem is_all_equal_Bool_Array_iff (v : Bool_Array) :
    is_all_equal_Bool_Array v = true ↔ ∀ i (h : i < v.length), v[i] = true := by
  unfold is_all_equal_Bool_Array
  rw [foldl_and_range]
  constructor
  · rintro ⟨-, h⟩ i hi
    rw [← List.getD_eq_getElem v false hi]
    exact h i hi
  · intro h
    refine ⟨rfl, fun i hi => ?_⟩
    rw [List.getD_eq_getElem v false hi]
    exact h i hi

/-- C1: for every element type with an equality, the generic `is_all_equal`
is true exactly when the two sequences have the same length and the entries
at every index compare equal; sequences of different lengths give false
whatever they hold, and two empty sequences compare equal. -/
theorem C1_is_all_equal_generic {T : Type} (eq : T → T → Bool) (v1 v2 : List T) :
    (is_all_equal eq v1 v2 = true ↔
      v1.length = v2.length ∧
        ∀ i (h1 : i < v1.length) (h2 : i < v2.length), eq v1[i] v2[i] = true) ∧
    (v1.length ≠ v2.length → is_all_equal eq v1 v2 = false) ∧
    is_all_equal eq ([] : List T) [] = true :=
  ⟨is_all_equal_iff eq v1 v2, is_all_equal_of_length_ne eq v1 v2, by simp [is_all_equal]⟩

/-- C1 at concrete integer sequences: `[1, 2]` against `[1, 2, 3]` has a
different length and compares false. -/
theorem C1_is_all_equal_generic_witness :
    is_all_equal Int_eq [1, 2] [1, 2, 3] = false :=
  (C1_is_all_equal_generic Int_eq [1, 2] [1, 2, 3]).2.1 (by decide)

/-- C2: the table overload is true exactly when the row counts match, every
row has the same length in both tables and every cell compares equal; with
matching row counts, one row of different length makes the result false
whatever the other rows hold. -/
theorem C2_is_all_equal_Real_Matrix (v1 v2 : Real_Matrix) :
    (is_all_equal_Real_Matrix v1 v2 = true ↔
      v1.length = v2.length ∧
        ∀ i (h1 : i < v1.length) (h2 : i < v2.length),
          v1[i].length = v2[i].length ∧
            ∀ j (g1 : j < v1[i].length) (g2 : j < v2[i].length),
              Double.eq v1[i][j] v2[i][j] = true) ∧
    (v1.length = v2.length →
      (∃ i, ∃ h1 : i < v1.length, ∃ h2 : i < v2.length, v1[i].length ≠ v2[i].length) →
        is_all_equal_Real_Matrix v1 v2 = false) := by
  refine ⟨is_all_equal_Real_Matrix_iff v1 v2, ?_⟩
  rintro - ⟨i, h1, h2, hne⟩
  rw [Bool.eq_false_iff]
  intro h
  exact hne (((is_all_equal_Real_Matrix_iff v1 v2).mp h).2 i h1 h2).1

/-- C2 at concrete tables: the second row has two cells in one table and one
in the other, after a first row that matches; the result is false. -/
theorem C2_is_all_equal_Real_Matrix_witness :
    is_all_equal_Real_Matrix [[Double.one], [Double.one, Double.zero]]
      [[Double.one], [Double.one]] = false :=
  (C2_is_all_equal_Real_Matrix [[Double.one], [Double.one, Double.zero]]
      [[Double.one], [Double.one]]).2 (by decide) ⟨1, by decide, by decide, by decide⟩

/-- C3: the one-argument reduction over a boolean sequence is true exactly
when every entry is true; on the empty sequence it is true. -/
theorem C3_is_all_equal_Bool_Array (v : Bool_Array) :
    (is_all_equal_Bool_Array v = true ↔ ∀ i (h : i < v.length), v[i] = true) ∧
    is_all_equal_Bool_Array [] = true :=
  ⟨is_all_equal_Bool_Array_iff v, by simp [is_all_equal_Bool_Array]⟩


/-! ### Comparing a value with itself -/

/-- A `double` compares equal to itself exactly when it is not a NaN. -/
theorem Double_eq_self (d : Double) : Double.eq d d = !d.isNaN := by
  cases h : d.isNaN <;> simp [Double.eq, h]

/-- A complex number compares equal to itself exactly when no part is a NaN. -/
theorem Complx_eq_self (c : Complx) : Complx.eq c c = c.noNaN := by
  simp [Complx.eq, Complx.noNaN, Double_eq_self]

/-- A sequence compared with itself: every entry compares equal to itself. -/
theorem is_all_equal_self {T : Type} (eq : T → T → Bool) (v : List T) :
    is_all_equal eq v v = v.all fun e => eq e e := by
  rw [Bool.eq_iff_iff, is_all_equal_iff, List.all_eq_true]
  constructor
  · rintro ⟨-, h⟩ e he
    obtain ⟨i, hi, rfl⟩ := List.getElem_of_mem he
    exact h i hi hi
  · intro h
    exact ⟨rfl, fun i h1 _ => h v[i] (List.getElem_mem h1)⟩

/-- An integer sequence always compares equal to itself. -/
theorem is_all_equal_Int_self (v : Int_Array) : is_all_equal Int_eq v v = true := by
  rw [is_all_equal_self, List.all_eq_true]
  intro e _
  simp [Int_eq]

/-- A real sequence compares equal to itself exactly when it holds no NaN. -/
theorem is_all_equal_Real_self (v : Real_Array) :
    is_all_equal Double.eq v v = Real_Array.noNaN v := by
  rw [is_all_equal_self, Real_Array.noNaN]
  simp only [Double_eq_self]

/-- A table compares equal to itself exactly when it holds no NaN. -/
theorem is_all_equal_Real_Matrix_self (m : Real_Matrix) :
    is_all_equal_Real_Matrix m m = Real_Matrix.noNaN m := by
  rw [Bool.eq_iff_iff, is_all_equal_Real_Matrix_iff, Real_Matrix.noNaN, List.all_eq_true]
  constructor
  · rintro ⟨-, h⟩ r hr
    obtain ⟨i, hi, rfl⟩ := List.getElem_of_mem hr
    rw [Real_Array.noNaN, List.all_eq_true]
    intro d hd
    obtain ⟨j, hj, rfl⟩ := List.getElem_of_mem hd
    have := (h i hi hi).2 j hj hj
    rwa [Double_eq_self] at this
  · intro h
    refine ⟨rfl, fun i h1 _ => ⟨rfl, fun j g1 _ => ?_⟩⟩
    have hr := h m[i] (List.getElem_mem h1)
    rw [Real_Array.noNaN, List.all_eq_true] at hr
    rw [Double_eq_self]
    exact hr m[i][j] (List.getElem_mem g1)

/-- The boolean reduction is the conjunction of the entries. -/
theorem is_all_equal_Bool_Array_eq_all (v : Bool_Array) :
    is_all_equal_Bool_Array v = v.all id := by
  rw [Bool.eq_iff_iff, is_all_equal_Bool_Array_iff, List.all_eq_true]
  constructor
  · intro h b hb
    obtain ⟨i, hi, rfl⟩ := List.getElem_of_mem hb
    exact h i hi
  · intro h i hi
    exact h v[i] (List.getElem_mem hi)

/-- A sequence of records compared with itself, given what each record
compared with itself yields. -/
theorem is_all_equal_self_of {T : Type} (eq : T → T → Bool) (p : T → Bool)
    (h : ∀ e, eq e e = p e) (v : List T) : is_all_equal eq v v = v.all p := by
  rw [is_all_equal_self]
  simp only [h]

/-- The `valarray` comparison of a sequence with itself is defined. -/
theorem valarray_eq_self {T : Type} (eq : T → T → Bool) (v : List T) :
    valarray_eq eq v v = some (v.map fun e => eq e e) := by
  have hz : List.zipWith eq v v = v.map fun e => eq e e := by
    induction v with
    | nil => rfl
    | cons a t ih => simp [List.zipWith, ih]
  simp [valarray_eq, hz]

/-- The boolean reduction of a mapped sequence is the conjunction of the
mapped entries. -/
theorem is_all_equal_Bool_Array_map {T : Type} (f : T → Bool) (v : List T) :
    is_all_equal_Bool_Array (v.map f) = v.all f := by
  rw [is_all_equal_Bool_Array_eq_all]
  induction v with
  | nil => rfl
  | cons a t ih => simp only [List.map_cons, List.all_cons, id, ih]

/-- A `C_coord` compared with itself gives true exactly when it holds no NaN. -/
theorem C_coord_operator_eq_self (x : C_coord) :
    C_coord.operator_eq x x = C_coord.noNaN x := by
  simp [C_coord.operator_eq, C_coord.noNaN, Double_eq_self, Complx_eq_self, is_all_equal_Real_self]

/-- A `C_twiss` compared with itself gives true exactly when it holds no NaN. -/
theorem C_twiss_operator_eq_self (x : C_twiss) :
    C_twiss.operator_eq x x = C_twiss.noNaN x := by
  simp [C_twiss.operator_eq, C_twiss.noNaN, Double_eq_self]

/-- A `C_xy_disp` compared with itself gives true exactly when it holds no NaN. -/
theorem C_xy_disp_operator_eq_self (x : C_xy_disp) :
    C_xy_disp.operator_eq x x = C_xy_disp.noNaN x := by
  simp [C_xy_disp.operator_eq, C_xy_disp.noNaN, Double_eq_self]

/-- A `C_floor_position` compared with itself gives true exactly when it holds no NaN. -/
theorem C_floor_position_operator_eq_self (x : C_floor_position) :
    C_floor_position.operator_eq x x = C_floor_position.noNaN x := by
  simp [C_floor_position.operator_eq, C_floor_position.noNaN, Double_eq_self]

/-- A `C_wig_term` compared with itself gives true exactly when it holds no NaN. -/
theorem C_wig_term_operator_eq_self (x : C_wig_term) :
    C_wig_term.operator_eq x x = C_wig_term.noNaN x := by
  simp [C_wig_term.operator_eq, C_wig_term.noNaN, Double_eq_self]

/-- A `C_taylor_term` compared with itself gives true exactly when it holds no NaN. -/
theorem C_taylor_term_operator_eq_self (x : C_taylor_term) :
    C_taylor_term.operator_eq x x = C_taylor_term.noNaN x := by
  cases h : x.coef.isNaN <;>
  simp [C_taylor_term.operator_eq, C_taylor_term.noNaN, Double_eq_self, is_all_equal_Int_self, h]

/-- A `C_taylor` compared with itself gives true exactly when it holds no NaN. -/
theorem C_taylor_operator_eq_self (x : C_taylor) :
    C_taylor.operator_eq x x = C_taylor.noNaN x := by
  simp [C_taylor.operator_eq, C_taylor.noNaN, Double_eq_self,
    is_all_equal_self_of _ _ C_taylor_term_operator_eq_self]

/-- A `C_rf_wake_sr_table` compared with itself gives true exactly when it holds no NaN. -/
theorem C_rf_wake_sr_table_operator_eq_self (x : C_rf_wake_sr_table) :
    C_rf_wake_sr_table.operator_eq x x = C_rf_wake_sr_table.noNaN x := by
  simp [C_rf_wake_sr_table.operator_eq, C_rf_wake_sr_table.noNaN, Double_eq_self]

/-- A `C_rf_wake_sr_mode` compared with itself gives true exactly when it holds no NaN. -/
theorem C_rf_wake_sr_mode_operator_eq_self (x : C_rf_wake_sr_mode) :
    C_rf_wake_sr_mode.operator_eq x x = C_rf_wake_sr_mode.noNaN x := by
  simp [C_rf_wake_sr_mode.operator_eq, C_rf_wake_sr_mode.noNaN, Double_eq_self]

/-- A `C_rf_wake_lr` compared with itself gives true exactly when it holds no NaN. -/
theorem C_rf_wake_lr_operator_eq_self (x : C_rf_wake_lr) :
    C_rf_wake_lr.operator_eq x x = C_rf_wake_lr.noNaN x := by
  simp [C_rf_wake_lr.operator_eq, C_rf_wake_lr.noNaN, Double_eq_self]

/-- A `C_rf_wake` compared with itself gives true exactly when it holds no NaN. -/
theorem C_rf_wake_operator_eq_self (x : C_rf_wake) :
    C_rf_wake.operator_eq x x = C_rf_wake.noNaN x := by
  simp [C_rf_wake.operator_eq, C_rf_wake.noNaN,
    is_all_equal_self_of _ _ C_rf_wake_sr_table_operator_eq_self,
    is_all_equal_self_of _ _ C_rf_wake_sr_mode_operator_eq_self,
    is_all_equal_self_of _ _ C_rf_wake_lr_operator_eq_self]

/-- A `C_rf_field_mode_term` compared with itself gives true exactly when it holds no NaN. -/
theorem C_rf_field_mode_term_operator_eq_self (x : C_rf_field_mode_term) :
    C_rf_field_mode_term.operator_eq x x = C_rf_field_mode_term.noNaN x := by
  simp [C_rf_field_mode_term.operator_eq, C_rf_field_mode_term.noNaN, Complx_eq_self]

/-- A `C_rf_field_mode` compared with itself gives true exactly when it holds no NaN. -/
theorem C_rf_field_mode_operator_eq_self (x : C_rf_field_mode) :
    C_rf_field_mode.operator_eq x x = C_rf_field_mode.noNaN x := by
  simp [C_rf_field_mode.operator_eq, C_rf_field_mode.noNaN, Double_eq_self,
    is_all_equal_self_of _ _ C_rf_field_mode_term_operator_eq_self]

/-- A `C_rf_field` compared with itself gives true exactly when it holds no NaN. -/
theorem C_rf_field_operator_eq_self (x : C_rf_field) :
    C_rf_field.operator_eq x x = C_rf_field.noNaN x := by
  simp [C_rf_field.operator_eq, C_rf_field.noNaN,
    is_all_equal_self_of _ _ C_rf_field_mode_operator_eq_self]

/-- A `C_rf` compared with itself gives true exactly when it holds no NaN. -/
theorem C_rf_operator_eq_self (x : C_rf) :
    C_rf.operator_eq x x = C_rf.noNaN x := by
  simp [C_rf.operator_eq, C_rf.noNaN, C_rf_wake_operator_eq_self, C_rf_field_operator_eq_self]

/-- A `C_wall3d_vertex` compared with itself gives true exactly when it holds no NaN. -/
theorem C_wall3d_vertex_operator_eq_self (x : C_wall3d_vertex) :
    C_wall3d_vertex.operator_eq x x = C_wall3d_vertex.noNaN x := by
  simp [C_wall3d_vertex.operator_eq, C_wall3d_vertex.noNaN, Double_eq_self]

/-- A `C_wall3d_section` compared with itself gives true exactly when it holds no NaN. -/
theorem C_wall3d_section_operator_eq_self (x : C_wall3d_section) :
    C_wall3d_section.operator_eq x x = C_wall3d_section.noNaN x := by
  simp [C_wall3d_section.operator_eq, C_wall3d_section.noNaN, Double_eq_self,
    is_all_equal_Real_self, is_all_equal_self_of _ _ C_wall3d_vertex_operator_eq_self]

/-- A `C_wall3d` compared with itself gives true exactly when it holds no NaN. -/
theorem C_wall3d_operator_eq_self (x : C_wall3d) :
    C_wall3d.operator_eq x x = C_wall3d.noNaN x := by
  simp [C_wall3d.operator_eq, C_wall3d.noNaN,
    is_all_equal_self_of _ _ C_wall3d_section_operator_eq_self]

/-- A `C_control` compared with itself gives true exactly when it holds no NaN. -/
theorem C_control_operator_eq_self (x : C_control) :
    C_control.operator_eq x x = C_control.noNaN x := by
  simp [C_control.operator_eq, C_control.noNaN, Double_eq_self]

/-- A `C_lat_param` compared with itself gives true exactly when it holds no NaN. -/
theorem C_lat_param_operator_eq_self (x : C_lat_param) :
    C_lat_param.operator_eq x x = C_lat_param.noNaN x := by
  simp [C_lat_param.operator_eq, C_lat_param.noNaN, Double_eq_self, is_all_equal_Real_Matrix_self]

/-- A `C_anormal_mode` compared with itself gives true exactly when it holds no NaN. -/
theorem C_anormal_mode_operator_eq_self (x : C_anormal_mode) :
    C_anormal_mode.operator_eq x x = C_anormal_mode.noNaN x := by
  simp [C_anormal_mode.operator_eq, C_anormal_mode.noNaN, Double_eq_self]

/-- A `C_linac_mode` compared with itself gives true exactly when it holds no NaN. -/
theorem C_linac_mode_operator_eq_self (x : C_linac_mode) :
    C_linac_mode.operator_eq x x = C_linac_mode.noNaN x := by
  simp [C_linac_mode.operator_eq, C_linac_mode.noNaN, Double_eq_self]

/-- A `C_normal_modes` compared with itself gives true exactly when it holds no NaN. -/
theorem C_normal_modes_operator_eq_self (x : C_normal_modes) :
    C_normal_modes.operator_eq x x = some (C_normal_modes.noNaN x) := by
  simp [C_normal_modes.operator_eq, C_normal_modes.noNaN, Double_eq_self, is_all_equal_Real_self,
    C_anormal_mode_operator_eq_self, C_linac_mode_operator_eq_self, valarray_eq_self,
    is_all_equal_Bool_Array_map, Real_Array.noNaN]

/-- A `C_bmad_com` compared with itself gives true exactly when it holds no NaN. -/
theorem C_bmad_com_operator_eq_self (x : C_bmad_com) :
    C_bmad_com.operator_eq x x = C_bmad_com.noNaN x := by
  simp [C_bmad_com.operator_eq, C_bmad_com.noNaN, Double_eq_self, is_all_equal_Real_self]

/-- A `C_em_field` compared with itself gives true exactly when it holds no NaN. -/
theorem C_em_field_operator_eq_self (x : C_em_field) :
    C_em_field.operator_eq x x = C_em_field.noNaN x := by
  simp [C_em_field.operator_eq, C_em_field.noNaN, is_all_equal_Real_self,
    is_all_equal_Real_Matrix_self]

/-- A `C_ele` compared with itself gives true exactly when it holds no NaN. -/
theorem C_ele_operator_eq_self (x : C_ele) :
    C_ele.operator_eq x x = C_ele.noNaN x := by
  simp [C_ele.operator_eq, C_ele.noNaN, Double_eq_self, is_all_equal_Real_self,
    is_all_equal_Real_Matrix_self, C_xy_disp_operator_eq_self, C_twiss_operator_eq_self,
    C_floor_position_operator_eq_self, is_all_equal_self_of _ _ C_taylor_operator_eq_self,
    is_all_equal_self_of _ _ C_wig_term_operator_eq_self, C_rf_operator_eq_self]

/-- A `C_branch` compared with itself gives true exactly when it holds no NaN. -/
theorem C_branch_operator_eq_self (x : C_branch) :
    C_branch.operator_eq x x = some (C_branch.noNaN x) := by
  simp [C_branch.operator_eq, C_branch.noNaN, is_all_equal_self_of _ _ C_ele_operator_eq_self,
    C_wall3d_operator_eq_self, C_lat_param_operator_eq_self, valarray_eq_self,
    is_all_equal_Bool_Array_map, C_ele_operator_eq_self]

/-- A `C_mode_info` compared with itself gives true exactly when it holds no NaN. -/
theorem C_mode_info_operator_eq_self (x : C_mode_info) :
    C_mode_info.operator_eq x x = C_mode_info.noNaN x := by
  simp [C_mode_info.operator_eq, C_mode_info.noNaN, Double_eq_self]



/-! ### The claims about the record comparisons -/

/-- C4 (as amended): for each of the twenty-eight record types below the
lattice, comparing a record with an identical copy of itself returns true
exactly when no `double` inside the record is a NaN, and false otherwise; for
`C_normal_modes` and `C_branch` the comparison of a record with itself is
always defined. -/
theorem C4_record_self_comparison :
    (∀ x : C_coord, C_coord.operator_eq x x = C_coord.noNaN x) ∧
    (∀ x : C_twiss, C_twiss.operator_eq x x = C_twiss.noNaN x) ∧
    (∀ x : C_xy_disp, C_xy_disp.operator_eq x x = C_xy_disp.noNaN x) ∧
    (∀ x : C_floor_position, C_floor_position.operator_eq x x = C_floor_position.noNaN x) ∧
    (∀ x : C_wig_term, C_wig_term.operator_eq x x = C_wig_term.noNaN x) ∧
    (∀ x : C_taylor_term, C_taylor_term.operator_eq x x = C_taylor_term.noNaN x) ∧
    (∀ x : C_taylor, C_taylor.operator_eq x x = C_taylor.noNaN x) ∧
    (∀ x : C_rf_wake_sr_table, C_rf_wake_sr_table.operator_eq x x = C_rf_wake_sr_table.noNaN x) ∧
    (∀ x : C_rf_wake_sr_mode, C_rf_wake_sr_mode.operator_eq x x = C_rf_wake_sr_mode.noNaN x) ∧
    (∀ x : C_rf_wake_lr, C_rf_wake_lr.operator_eq x x = C_rf_wake_lr.noNaN x) ∧
    (∀ x : C_rf_wake, C_rf_wake.operator_eq x x = C_rf_wake.noNaN x) ∧
    (∀ x : C_rf_field_mode_term,
      C_rf_field_mode_term.operator_eq x x = C_rf_field_mode_term.noNaN x) ∧
    (∀ x : C_rf_field_mode, C_rf_field_mode.operator_eq x x = C_rf_field_mode.noNaN x) ∧
    (∀ x : C_rf_field, C_rf_field.operator_eq x x = C_rf_field.noNaN x) ∧
    (∀ x : C_rf, C_rf.operator_eq x x = C_rf.noNaN x) ∧
    (∀ x : C_wall3d_vertex, C_wall3d_vertex.operator_eq x x = C_wall3d_vertex.noNaN x) ∧
    (∀ x : C_wall3d_section, C_wall3d_section.operator_eq x x = C_wall3d_section.noNaN x) ∧
    (∀ x : C_wall3d, C_wall3d.operator_eq x x = C_wall3d.noNaN x) ∧
    (∀ x : C_control, C_control.operator_eq x x = C_control.noNaN x) ∧
    (∀ x : C_lat_param, C_lat_param.operator_eq x x = C_lat_param.noNaN x) ∧
    (∀ x : C_anormal_mode, C_anormal_mode.operator_eq x x = C_anormal_mode.noNaN x) ∧
    (∀ x : C_linac_mode, C_linac_mode.operator_eq x x = C_linac_mode.noNaN x) ∧
    (∀ x : C_normal_modes, C_normal_modes.operator_eq x x = some (C_normal_modes.noNaN x)) ∧
    (∀ x : C_branch, C_branch.operator_eq x x = some (C_branch.noNaN x)) ∧
    (∀ x : C_bmad_com, C_bmad_com.operator_eq x x = C_bmad_com.noNaN x) ∧
    (∀ x : C_em_field, C_em_field.operator_eq x x = C_em_field.noNaN x) ∧
    (∀ x : C_ele, C_ele.operator_eq x x = C_ele.noNaN x) ∧
    (∀ x : C_mode_info, C_mode_info.operator_eq x x = C_mode_info.noNaN x) :=
  ⟨C_coord_operator_eq_self,
    C_twiss_operator_eq_self,
    C_xy_disp_operator_eq_self,
    C_floor_position_operator_eq_self,
    C_wig_term_operator_eq_self,
    C_taylor_term_operator_eq_self,
    C_taylor_operator_eq_self,
    C_rf_wake_sr_table_operator_eq_self,
    C_rf_wake_sr_mode_operator_eq_self,
    C_rf_wake_lr_operator_eq_self,
    C_rf_wake_operator_eq_self,
    C_rf_field_mode_term_operator_eq_self,
    C_rf_field_mode_operator_eq_self,
    C_rf_field_operator_eq_self,
    C_rf_operator_eq_self,
    C_wall3d_vertex_operator_eq_self,
    C_wall3d_section_operator_eq_self,
    C_wall3d_operator_eq_self,
    C_control_operator_eq_self,
    C_lat_param_operator_eq_self,
    C_anormal_mode_operator_eq_self,
    C_linac_mode_operator_eq_self,
    C_normal_modes_operator_eq_self,
    C_branch_operator_eq_self,
    C_bmad_com_operator_eq_self,
    C_em_field_operator_eq_self,
    C_ele_operator_eq_self,
    C_mode_info_operator_eq_self⟩

/-- C4 at a concrete element free of NaN: the all-zero element compares equal
to itself. -/
theorem C4_record_self_comparison_witness :
    C_ele.noNaN C_ele.blank = true ∧ C_ele.operator_eq C_ele.blank C_ele.blank = true :=
  have h := C4_record_self_comparison.2.2.2.2.2.2.2.2.2.2.2.2.2.2.2.2.2.2.2.2.2.2.2.2.2.2.1
  ⟨by decide, (h C_ele.blank).trans (by decide)⟩

/-- C4 as stated fails: a field record whose table `dE` holds a NaN, and an
element whose `s` is a NaN, each compare unequal to an identical copy. -/
theorem C4_reflexivity_fails_on_NaN :
    C_em_field.operator_eq C_em_field.withNaN C_em_field.withNaN = false ∧
    C_ele.operator_eq C_ele.withNaN C_ele.withNaN = false := by
  decide

/-! ### The lattice comparison -/

/-- One pass of the element loop at an index inside both sequences. -/
theorem C_lat_ele_step_in_range (x y : C_lat) (b : Bool) (i : Nat)
    (hx : i < x.ele.length) (hy : i < y.ele.length) :
    C_lat.ele_step x y (some b) i = some (b && eqAt C_ele.operator_eq x.ele y.ele i) := by
  cases b <;>
    simp [C_lat.ele_step, eqAt, List.getElem?_eq_getElem hx, List.getElem?_eq_getElem hy]

/-- The element loop over `0 .. n-1`, when both sequences have at least `n`
entries, never faults and accumulates the entry-wise comparisons. -/
theorem C_lat_ele_loop_in_range (x y : C_lat) (n : Nat)
    (hx : n ≤ x.ele.length) (hy : n ≤ y.ele.length) (b : Bool) :
    (List.range n).foldl (C_lat.ele_step x y) (some b) =
      some ((List.range n).foldl
        (fun t i => t && eqAt C_ele.operator_eq x.ele y.ele i) b) := by
  induction n with
  | zero => rfl
  | succ k ih =>
    rw [List.range_succ, List.foldl_append, List.foldl_append,
      ih (Nat.le_of_succ_le hx) (Nat.le_of_succ_le hy)]
    simp only [List.foldl_cons, List.foldl_nil]
    exact C_lat_ele_step_in_range x y _ k hx hy

/-- The lattice comparison, when both element sequences have more than
`x.n_ele_max` entries: the comparison of `ic` and of the elements at the
indices `0 .. x.n_ele_max`, and nothing else. -/
theorem C_lat_operator_eq_in_range (x y : C_lat)
    (hx : x.n_ele_max < x.ele.length) (hy : x.n_ele_max < y.ele.length) :
    C_lat.operator_eq x y =
      some ((List.range (x.n_ele_max + 1).toNat).foldl
        (fun t i => t && eqAt C_ele.operator_eq x.ele y.ele i)
        (is_all_equal Int_eq x.ic y.ic)) := by
  unfold C_lat.operator_eq
  exact C_lat_ele_loop_in_range x y _ (Int.toNat_le.mpr (by omega))
    (Int.toNat_le.mpr (by omega)) _

/-- C5 (as amended): a lattice whose element sequence has more than
`n_ele_max` entries, and whose elements at the indices `0 .. n_ele_max` hold
no NaN, compares equal to an identical copy of itself. -/
theorem C5_lat_reflexive_in_range (x : C_lat)
    (hlen : x.n_ele_max < x.ele.length)
    (hnan : ∀ e ∈ x.ele.take (x.n_ele_max + 1).toNat, C_ele.noNaN e = true) :
    C_lat.operator_eq x x = some true := by
  rw [C_lat_operator_eq_in_range x x hlen hlen, Option.some.injEq, foldl_and_range]
  refine ⟨is_all_equal_Int_self x.ic, fun i hi => ?_⟩
  have hil : i < x.ele.length := by omega
  rw [eqAt_of_lt _ _ _ i hil hil, C_ele_operator_eq_self]
  exact hnan _ (List.mem_take_iff_getElem.mpr ⟨i, by omega, rfl⟩)

/-- C5 at a concrete lattice: one all-zero element and `n_ele_max = 0`. -/
theorem C5_lat_reflexive_in_range_witness :
    C_lat.operator_eq C_lat.single C_lat.single = some true :=
  C5_lat_reflexive_in_range C_lat.single (by decide) (by decide)

/-- C5 as stated fails: with `n_ele_max = 0` and an empty element sequence the
comparison of a lattice with itself reads `ele[0]`, which is out of range, and
with `n_ele_max = 0` and one element holding a NaN it returns false. -/
theorem C5_lat_reflexivity_fails :
    C_lat.operator_eq C_lat.blank C_lat.blank = none ∧
    C_lat.operator_eq C_lat.singleNaN C_lat.singleNaN = some false := by
  decide

/-! ### The element comparison -/

/-- The generic helper, in the words of the specification. -/
theorem is_all_equal_iff_SameSeq {T : Type} (eq : T → T → Bool) (v1 v2 : List T) :
    is_all_equal eq v1 v2 = true ↔ SameSeq eq v1 v2 :=
  is_all_equal_iff eq v1 v2

/-- The table helper, in the words of the specification. -/
theorem is_all_equal_Real_Matrix_iff_SameTable (m1 m2 : Real_Matrix) :
    is_all_equal_Real_Matrix m1 m2 = true ↔ SameTable m1 m2 :=
  is_all_equal_Real_Matrix_iff m1 m2

/-- The element comparison is true exactly on elements that agree field by
field. -/
theorem C_ele_operator_eq_iff (x y : C_ele) :
    C_ele.operator_eq x y = true ↔ C_ele.FieldwiseEqual x y := by
  simp only [C_ele.operator_eq, C_ele.FieldwiseEqual, Bool.and_eq_true, beq_iff_eq,
    is_all_equal_iff_SameSeq, is_all_equal_Real_Matrix_iff_SameTable, and_assoc]

/-- Elements with a differing scalar or string field do not agree field by
field. -/
theorem C_ele_not_FieldwiseEqual_of_differs (x y : C_ele)
    (h : C_ele.ScalarFieldDiffers x y) : ¬ C_ele.FieldwiseEqual x y := by
  unfold C_ele.FieldwiseEqual
  unfold C_ele.ScalarFieldDiffers at h
  simp only [ne_eq, ← Bool.not_eq_true] at h
  tauto

/-- C6: the element comparison returns true exactly when every scalar and
string field is equal, every nested record is equal under its own predicate,
and every sequence field has equal length and pointwise-equal entries; so two
elements with a differing scalar field compare unequal, whatever the other
fields hold. -/
theorem C6_ele_fieldwise (x y : C_ele) :
    (C_ele.operator_eq x y = true ↔ C_ele.FieldwiseEqual x y) ∧
    (C_ele.ScalarFieldDiffers x y → C_ele.operator_eq x y = false) := by
  refine ⟨C_ele_operator_eq_iff x y, fun h => ?_⟩
  rw [Bool.eq_false_iff]
  intro he
  exact C_ele_not_FieldwiseEqual_of_differs x y h ((C_ele_operator_eq_iff x y).mp he)

/-- C6 at concrete elements: the all-zero element and a copy whose `key` is 1
differ in one scalar field and compare unequal. -/
theorem C6_ele_fieldwise_witness :
    C_ele.operator_eq C_ele.blank { C_ele.blank with key := 1 } = false :=
  (C6_ele_fieldwise C_ele.blank { C_ele.blank with key := 1 }).2 (by
    unfold C_ele.ScalarFieldDiffers
    simp only [ne_eq]
    decide)

/-- C7, the code at the failing inputs: a one-element lattice and a copy that
differs only in `name`, only in `version`, only in `n_ele_track`, only in
`n_control_max` or only in `input_taylor_order` all compare equal, because
`is_true = is_all_equal(x.ic, y.ic)` overwrites the result of the sixteen
comparisons before it. -/
theorem C7_lat_scalar_difference_is_lost :
    C_lat.operator_eq C_lat.single { C_lat.single with name := "B" } = some true ∧
    C_lat.operator_eq C_lat.single { C_lat.single with version := 1 } = some true ∧
    C_lat.operator_eq C_lat.single { C_lat.single with n_ele_track := 1 } = some true ∧
    C_lat.operator_eq C_lat.single { C_lat.single with n_control_max := 1 } = some true ∧
    C_lat.operator_eq C_lat.single { C_lat.single with input_taylor_order := 1 } =
      some true := by
  decide

/-- On `synch_int` sequences of different lengths the `C_normal_modes`
comparison is undefined, whatever the records hold. -/
theorem C_normal_modes_operator_eq_of_length_ne (x y : C_normal_modes)
    (h : x.synch_int.length ≠ y.synch_int.length) :
    C_normal_modes.operator_eq x y = none := by
  simp [C_normal_modes.operator_eq, valarray_eq, h]

/-- On `ele` sequences of different lengths the `C_branch` comparison is false
when one of the seven comparisons before the sequence fails, and undefined
otherwise. -/
theorem C_branch_operator_eq_of_length_ne (x y : C_branch)
    (h : x.ele.length ≠ y.ele.length) :
    C_branch.operator_eq x y =
      if (x.key == y.key) && (x.name == y.name) && (x.ix_branch == y.ix_branch) &&
          (x.ix_from_branch == y.ix_from_branch) && (x.ix_from_ele == y.ix_from_ele) &&
          (x.n_ele_track == y.n_ele_track) && (x.n_ele_max == y.n_ele_max)
      then none else some false := by
  simp [C_branch.operator_eq, valarray_eq, h]

/-- C8, the code at the failing inputs: on two `C_normal_modes` records that
differ only in the length of `synch_int`, and on two branches that differ only
in the length of `ele`, the comparison evaluates `valarray == valarray` on
operands of different sizes, which is undefined; it does not return false. -/
theorem C8_length_mismatch_is_undefined :
    C_normal_modes.operator_eq C_normal_modes.blank C_normal_modes.oneInt = none ∧
    C_branch.operator_eq C_branch.blank C_branch.oneEle = none := by
  decide

/-! ### What the lattice comparison reads -/

/-- The accumulating loop as one conjunction. -/
theorem foldl_and_range_eq_all (p : Nat → Bool) (n : Nat) (b : Bool) :
    (List.range n).foldl (fun t i => t && p i) b = (b && (List.range n).all p) := by
  rw [Bool.eq_iff_iff, foldl_and_range, Bool.and_eq_true, List.all_eq_true]
  simp only [List.mem_range]

/-- Two loop bodies that agree below `n` give the same loop over `0 .. n-1`. -/
theorem foldl_range_congr {α : Type} (f g : α → Nat → α) (n : Nat) (a : α)
    (h : ∀ i, i < n → ∀ acc, f acc i = g acc i) :
    (List.range n).foldl f a = (List.range n).foldl g a := by
  induction n with
  | zero => rfl
  | succ k ih =>
    rw [List.range_succ, List.foldl_append, List.foldl_append,
      ih fun i hi acc => h i (Nat.lt_succ_of_lt hi) acc]
    simp only [List.foldl_cons, List.foldl_nil]
    exact h k (Nat.lt_succ_self k) _

/-- One pass of the element loop below `k` sees only the first `k` entries of
the two element sequences. -/
theorem C_lat_ele_step_congr (x y x2 y2 : C_lat) (k i : Nat) (hi : i < k)
    (hx : x2.ele.take k = x.ele.take k) (hy : y2.ele.take k = y.ele.take k)
    (acc : Option Bool) :
    C_lat.ele_step x2 y2 acc i = C_lat.ele_step x y acc i := by
  have h1 : x2.ele[i]? = x.ele[i]? := by
    rw [← List.getElem?_take_of_lt hi, hx, List.getElem?_take_of_lt hi]
  have h2 : y2.ele[i]? = y.ele[i]? := by
    rw [← List.getElem?_take_of_lt hi, hy, List.getElem?_take_of_lt hi]
  simp only [C_lat.ele_step, h1, h2]

/-- The lattice comparison is decided by `x.n_ele_max`, the two `ic` and the
first `x.n_ele_max + 1` entries of the two element sequences. -/
theorem C_lat_operator_eq_congr (x y x2 y2 : C_lat)
    (hn : x2.n_ele_max = x.n_ele_max) (hicx : x2.ic = x.ic) (hicy : y2.ic = y.ic)
    (hx : x2.ele.take (x.n_ele_max + 1).toNat = x.ele.take (x.n_ele_max + 1).toNat)
    (hy : y2.ele.take (x.n_ele_max + 1).toNat = y.ele.take (x.n_ele_max + 1).toNat) :
    C_lat.operator_eq x2 y2 = C_lat.operator_eq x y := by
  unfold C_lat.operator_eq
  simp only [hn, hicx, hicy]
  exact foldl_range_congr _ _ _ _ fun i hi acc => C_lat_ele_step_congr x y x2 y2 _ i hi hx hy acc

/-- C12: when both element sequences have more than `x.n_ele_max` entries,
the lattice comparison returns exactly `is_all_equal(x.ic, y.ic)` and-ed with
`x.ele[i] == y.ele[i]` for `i = 0 .. x.n_ele_max`; two lattices with the same
`x.n_ele_max`, the same `ic` and the same elements at those indices give the
same result whatever their other fields and their later elements hold. -/
theorem C12_lat_walks_stored_range (x y : C_lat)
    (hx : x.n_ele_max < x.ele.length) (hy : x.n_ele_max < y.ele.length) :
    C_lat.operator_eq x y =
      some (is_all_equal Int_eq x.ic y.ic &&
        (List.range (x.n_ele_max + 1).toNat).all fun i =>
          eqAt C_ele.operator_eq x.ele y.ele i) ∧
    (C_lat.operator_eq x y = some true ↔
      is_all_equal Int_eq x.ic y.ic = true ∧
        ∀ i (h1 : i < x.ele.length) (h2 : i < y.ele.length), (i : Int) ≤ x.n_ele_max →
          C_ele.operator_eq x.ele[i] y.ele[i] = true) ∧
    (∀ x2 y2 : C_lat, x2.n_ele_max = x.n_ele_max → x2.ic = x.ic → y2.ic = y.ic →
      x2.ele.take (x.n_ele_max + 1).toNat = x.ele.take (x.n_ele_max + 1).toNat →
      y2.ele.take (x.n_ele_max + 1).toNat = y.ele.take (x.n_ele_max + 1).toNat →
      C_lat.operator_eq x2 y2 = C_lat.operator_eq x y) := by
  refine ⟨?_, ?_, fun x2 y2 hn h1 h2 h3 h4 => C_lat_operator_eq_congr x y x2 y2 hn h1 h2 h3 h4⟩
  · rw [C_lat_operator_eq_in_range x y hx hy, foldl_and_range_eq_all]
  · rw [C_lat_operator_eq_in_range x y hx hy, Option.some.injEq, foldl_and_range]
    constructor
    · rintro ⟨hic, h⟩
      refine ⟨hic, fun i h1 h2 hi => ?_⟩
      rw [← eqAt_of_lt C_ele.operator_eq x.ele y.ele i h1 h2]
      exact h i (by omega)
    · rintro ⟨hic, h⟩
      refine ⟨hic, fun i hi => ?_⟩
      have h1 : i < x.ele.length := by omega
      have h2 : i < y.ele.length := by omega
      rw [eqAt_of_lt C_ele.operator_eq x.ele y.ele i h1 h2]
      exact h i h1 h2 (by omega)

/-- C12 at concrete lattices: a one-element lattice with `n_ele_max = 0`
against a copy with another name, another `n_ele_max` and a second, different
element gives the comparison of `ic` and of `ele[0]` alone. -/
theorem C12_lat_walks_stored_range_witness :
    C_lat.operator_eq C_lat.single
        { C_lat.single with name := "B", n_ele_max := 1,
                            ele := [C_ele.blank, C_ele.withNaN] } =
      some (is_all_equal Int_eq C_lat.single.ic C_lat.single.ic &&
        (List.range (C_lat.single.n_ele_max + 1).toNat).all fun i =>
          eqAt C_ele.operator_eq C_lat.single.ele [C_ele.blank, C_ele.withNaN] i) :=
  (C12_lat_walks_stored_range C_lat.single
    { C_lat.single with name := "B", n_ele_max := 1, ele := [C_ele.blank, C_ele.withNaN] }
    (by decide) (by decide)).1

/-- C14, the code at the failing input: both element sequences have one entry,
`x.n_ele_max = -1` and `y.n_ele_max = 0`, and the two elements differ in `key`.
`x == y` runs no pass of the element loop and returns true; `y == x` compares
`ele[0]` and returns false. -/
theorem C14_lat_comparison_not_symmetric :
    C_lat.operator_eq C_lat.noneRead C_lat.otherEle = some true ∧
    C_lat.operator_eq C_lat.otherEle C_lat.noneRead = some false := by
  decide

/-! ### Index safety of the lattice comparison -/

/-- Once a subscript has faulted the loop stays faulted. -/
theorem C_lat_ele_loop_none (x y : C_lat) (l : List Nat) :
    l.foldl (C_lat.ele_step x y) none = none := by
  induction l with
  | nil => rfl
  | cons i rest ih => simpa [C_lat.ele_step] using ih

/-- Once `is_true` is false the loop evaluates no subscript and stays false. -/
theorem C_lat_ele_loop_false (x y : C_lat) (l : List Nat) :
    l.foldl (C_lat.ele_step x y) (some false) = some false := by
  induction l with
  | nil => rfl
  | cons i rest ih => simpa [C_lat.ele_step] using ih

/-- With `is_true` still true, a pass at an index outside one of the two
sequences faults. -/
theorem C_lat_ele_step_out_of_range (x y : C_lat) (i : Nat)
    (h : min x.ele.length y.ele.length ≤ i) :
    C_lat.ele_step x y (some true) i = none := by
  rcases Nat.lt_or_ge i x.ele.length with h1 | h1
  · have h2 : y.ele.length ≤ i := by omega
    simp [C_lat.ele_step, List.getElem?_eq_none h2]
  · simp [C_lat.ele_step, List.getElem?_eq_none h1]

/-- The element loop run past the end of the shorter sequence: it faults when
the comparisons up to that end all held, and is false otherwise. -/
theorem C_lat_ele_loop_past_range (x y : C_lat) (d : Nat) (b : Bool) :
    (List.range (min x.ele.length y.ele.length + 1 + d)).foldl
        (C_lat.ele_step x y) (some b) =
      if (List.range (min x.ele.length y.ele.length)).foldl
          (fun t i => t && eqAt C_ele.operator_eq x.ele y.ele i) b = true
      then none else some false := by
  induction d with
  | zero =>
    rw [Nat.add_zero, List.range_succ, List.foldl_append,
      C_lat_ele_loop_in_range x y _ (Nat.min_le_left _ _) (Nat.min_le_right _ _)]
    simp only [List.foldl_cons, List.foldl_nil]
    cases (List.range (min x.ele.length y.ele.length)).foldl
        (fun t i => t && eqAt C_ele.operator_eq x.ele y.ele i) b with
    | true => simp [C_lat_ele_step_out_of_range x y _ (Nat.le_refl _)]
    | false => simp [C_lat.ele_step]
  | succ k ih =>
    rw [← Nat.add_assoc, List.range_succ, List.foldl_append, ih]
    simp only [List.foldl_cons, List.foldl_nil]
    split <;> simp [C_lat.ele_step]

/-- The lattice comparison when one element sequence has no more than
`x.n_ele_max` entries. -/
theorem C_lat_operator_eq_past_range (x y : C_lat)
    (h : ¬ (x.n_ele_max < x.ele.length ∧ x.n_ele_max < y.ele.length)) :
    C_lat.operator_eq x y =
      if (List.range (min x.ele.length y.ele.length)).foldl
          (fun t i => t && eqAt C_ele.operator_eq x.ele y.ele i)
          (is_all_equal Int_eq x.ic y.ic) = true
      then none else some false := by
  have hk : (x.n_ele_max + 1).toNat =
      min x.ele.length y.ele.length + 1 +
        ((x.n_ele_max + 1).toNat - (min x.ele.length y.ele.length + 1)) := by
    omega
  unfold C_lat.operator_eq
  rw [hk]
  exact C_lat_ele_loop_past_range x y _ _

/-- C15 (as amended): when both element sequences have more than `x.n_ele_max`
entries the comparison never evaluates a subscript out of range; when
`x.n_ele_max < 0` it reads no element and returns the comparison of `ic`.
Without that precondition an out-of-range subscript is evaluated exactly when
`is_all_equal(x.ic, y.ic)` holds and the elements compare equal at every index
present in both sequences; otherwise `&&` stops the reads and the result is
false. -/
theorem C15_lat_index_safety (x y : C_lat) :
    (x.n_ele_max < x.ele.length → x.n_ele_max < y.ele.length →
      ∃ b, C_lat.operator_eq x y = some b) ∧
    (x.n_ele_max < 0 →
      C_lat.operator_eq x y = some (is_all_equal Int_eq x.ic y.ic)) ∧
    (¬ (x.n_ele_max < x.ele.length ∧ x.n_ele_max < y.ele.length) →
      (C_lat.operator_eq x y = none ↔
        is_all_equal Int_eq x.ic y.ic = true ∧
          ∀ i (h1 : i < x.ele.length) (h2 : i < y.ele.length),
            C_ele.operator_eq x.ele[i] y.ele[i] = true) ∧
      (C_lat.operator_eq x y ≠ none → C_lat.operator_eq x y = some false)) := by
  refine ⟨fun hx hy => ⟨_, C_lat_operator_eq_in_range x y hx hy⟩, fun hneg => ?_, fun h => ?_⟩
  · have hk : (x.n_ele_max + 1).toNat = 0 := by omega
    unfold C_lat.operator_eq
    rw [hk]
    rfl
  · rw [C_lat_operator_eq_past_range x y h]
    have hiff : (List.range (min x.ele.length y.ele.length)).foldl
          (fun t i => t && eqAt C_ele.operator_eq x.ele y.ele i)
          (is_all_equal Int_eq x.ic y.ic) = true ↔
        is_all_equal Int_eq x.ic y.ic = true ∧
          ∀ i (h1 : i < x.ele.length) (h2 : i < y.ele.length),
            C_ele.operator_eq x.ele[i] y.ele[i] = true := by
      rw [foldl_and_range]
      constructor
      · rintro ⟨hic, hall⟩
        refine ⟨hic, fun i h1 h2 => ?_⟩
        rw [← eqAt_of_lt C_ele.operator_eq x.ele y.ele i h1 h2]
        exact hall i (by omega)
      · rintro ⟨hic, hall⟩
        refine ⟨hic, fun i hi => ?_⟩
        have h1 : i < x.ele.length := by omega
        have h2 : i < y.ele.length := by omega
        rw [eqAt_of_lt C_ele.operator_eq x.ele y.ele i h1 h2]
        exact hall i h1 h2
    constructor
    · rw [← hiff]
      split <;> simp_all
    · split <;> simp

/-- C15 at concrete lattices: with one element each and `n_ele_max = 0` the
comparison is defined. -/
theorem C15_lat_index_safety_witness :
    ∃ b, C_lat.operator_eq C_lat.single C_lat.otherEle = some b :=
  (C15_lat_index_safety C_lat.single C_lat.otherEle).1 (by decide) (by decide)

/-- C15 as stated fails: with `n_ele_max = 0` and no element at all the
precondition does not hold, yet on `ic = [1]` against `ic = [2]` the loop
starts with `is_true` false, evaluates no subscript, and the result is false. -/
theorem C15_no_access_without_precondition :
    ¬ (C_lat.icOne.n_ele_max < C_lat.icOne.ele.length ∧
        C_lat.icOne.n_ele_max < C_lat.icTwo.ele.length) ∧
    C_lat.operator_eq C_lat.icOne C_lat.icTwo = some false := by
  decide

/-! ### The diagnostic reporter -/

/-- The element comparison is the conjunction of the seventeen group flags of
`ele_comp` and of the comparisons of `attribute_status` and `csr_calc_on`. -/
theorem C_ele_operator_eq_eq_flags (x y : C_ele) :
    C_ele.operator_eq x y =
      ((ele_comp_flags x y).all (fun p => p.2) &&
        ((x.attribute_status == y.attribute_status) &&
          (x.csr_calc_on == y.csr_calc_on))) := by
  simp only [ele_comp_flags, C_ele.operator_eq, List.all_cons, List.all_nil, Bool.and_true]
  ac_rfl

/-- C16: the element comparison returns true exactly when all seventeen group
flags printed by `ele_comp` (name, int, logic, xy, abz, floor, value, gen0,
vec0, mat6, c_mat, a_pole, b_pole, const, taylor, wig, r) are true and
`attribute_status` and `csr_calc_on`, which no group reports, are equal. -/
theorem C16_ele_comp_agrees (x y : C_ele) :
    (C_ele.operator_eq x y = true ↔
      (∀ p ∈ ele_comp_flags x y, p.2 = true) ∧
        x.attribute_status = y.attribute_status ∧ x.csr_calc_on = y.csr_calc_on) ∧
    (ele_comp_flags x y).map (fun p => p.1) =
      ["name: ", "int:  ", "logic: ", "xy:     ", "abz:    ", "floor:  ", "value:  ",
        "gen0:   ", "vec0:   ", "mat6:   ", "c_mat:  ", "a_pole: ", "b_pole: ",
        "const:  ", "taylor: ", "wig:    ", "r:      "] ∧
    ele_comp x y = (ele_comp_flags x y).map fun p => p.1 ++ show_bool p.2 := by
  refine ⟨?_, rfl, rfl⟩
  rw [C_ele_operator_eq_eq_flags, Bool.and_eq_true, Bool.and_eq_true, List.all_eq_true,
    beq_iff_eq, beq_iff_eq]

/-- C16 at concrete elements: on the all-zero element against itself every flag
is true and the two unreported fields agree, so the comparison is true. -/
theorem C16_ele_comp_agrees_witness :
    C_ele.operator_eq C_ele.blank C_ele.blank = true :=
  (C16_ele_comp_agrees C_ele.blank C_ele.blank).1.mpr ⟨by decide, by decide, by decide⟩

/-! ### The size tests before `is_all_equal` -/

/-- The generic helper already carries the size test. -/
theorem is_all_equal_eq_length_and {T : Type} (eq : T → T → Bool) (v1 v2 : List T) :
    is_all_equal eq v1 v2 = ((v1.length == v2.length) && is_all_equal eq v1 v2) := by
  by_cases h : v1.length = v2.length
  · simp [h]
  · simp [h, is_all_equal_of_length_ne eq v1 v2 h]

/-- C17: the comparison of two `C_rf_wake` records returns the same value as
the two file-name comparisons and-ed with `is_all_equal` on `sr_table`,
`sr_mode_long`, `sr_mode_trans` and `lr`, and the comparison of two
`C_taylor_term` records the same value as `coef == coef` and-ed with
`is_all_equal` on `expn`: the explicit size tests change nothing. -/
theorem C17_size_tests_redundant :
    (∀ x y : C_rf_wake, C_rf_wake.operator_eq x y =
      ((x.sr_file == y.sr_file) && (x.lr_file == y.lr_file) &&
        is_all_equal C_rf_wake_sr_table.operator_eq x.sr_table y.sr_table &&
        is_all_equal C_rf_wake_sr_mode.operator_eq x.sr_mode_long y.sr_mode_long &&
        is_all_equal C_rf_wake_sr_mode.operator_eq x.sr_mode_trans y.sr_mode_trans &&
        is_all_equal C_rf_wake_lr.operator_eq x.lr y.lr)) ∧
    (∀ x y : C_taylor_term, C_taylor_term.operator_eq x y =
      (Double.eq x.coef y.coef && is_all_equal Int_eq x.expn y.expn)) := by
  constructor
  · intro x y
    unfold C_rf_wake.operator_eq
    rw [is_all_equal_eq_length_and C_rf_wake_sr_table.operator_eq x.sr_table,
      is_all_equal_eq_length_and C_rf_wake_sr_mode.operator_eq x.sr_mode_long,
      is_all_equal_eq_length_and C_rf_wake_sr_mode.operator_eq x.sr_mode_trans,
      is_all_equal_eq_length_and C_rf_wake_lr.operator_eq x.lr]
    generalize (x.sr_file == y.sr_file) = s
    generalize (x.lr_file == y.lr_file) = l
    generalize (x.sr_table.length == y.sr_table.length) = n1
    generalize (x.sr_mode_long.length == y.sr_mode_long.length) = n2
    generalize (x.sr_mode_trans.length == y.sr_mode_trans.length) = n3
    generalize (x.lr.length == y.lr.length) = n4
    generalize is_all_equal C_rf_wake_sr_table.operator_eq x.sr_table y.sr_table = i1
    generalize is_all_equal C_rf_wake_sr_mode.operator_eq x.sr_mode_long y.sr_mode_long = i2
    generalize is_all_equal C_rf_wake_sr_mode.operator_eq x.sr_mode_trans y.sr_mode_trans = i3
    generalize is_all_equal C_rf_wake_lr.operator_eq x.lr y.lr = i4
    cases s <;> cases l <;> cases n1 <;> cases n2 <;> cases n3 <;> cases n4 <;>
      cases i1 <;> cases i2 <;> cases i3 <;> cases i4 <;> rfl
  · intro x y
    unfold C_taylor_term.operator_eq
    rw [is_all_equal_eq_length_and Int_eq x.expn]
    generalize Double.eq x.coef y.coef = c
    generalize (x.expn.length == y.expn.length) = n
    generalize is_all_equal Int_eq x.expn y.expn = i
    cases c <;> cases n <;> cases i <;> rfl

/-! ### The sequence helpers as relations -/

/-- Over a reflexive element comparison the generic helper is reflexive. -/
theorem is_all_equal_refl {T : Type} (eq : T → T → Bool)
    (hrefl : ∀ a, eq a a = true) (v : List T) : is_all_equal eq v v = true := by
  rw [is_all_equal_self, List.all_eq_true]
  exact fun e _ => hrefl e

/-- Over a symmetric element comparison the generic helper is symmetric. -/
theorem is_all_equal_symm {T : Type} (eq : T → T → Bool)
    (hsymm : ∀ a b, eq a b = true → eq b a = true) (v1 v2 : List T) :
    is_all_equal eq v1 v2 = is_all_equal eq v2 v1 := by
  rw [Bool.eq_iff_iff, is_all_equal_iff, is_all_equal_iff]
  constructor
  · rintro ⟨hlen, h⟩
    exact ⟨hlen.symm, fun i h1 h2 => hsymm _ _ (h i h2 h1)⟩
  · rintro ⟨hlen, h⟩
    exact ⟨hlen.symm, fun i h1 h2 => hsymm _ _ (h i h2 h1)⟩

/-- Over a transitive element comparison the generic helper is transitive. -/
theorem is_all_equal_trans {T : Type} (eq : T → T → Bool)
    (htrans : ∀ a b c, eq a b = true → eq b c = true → eq a c = true)
    (v1 v2 v3 : List T) (h12 : is_all_equal eq v1 v2 = true)
    (h23 : is_all_equal eq v2 v3 = true) : is_all_equal eq v1 v3 = true := by
  rw [is_all_equal_iff] at h12 h23 ⊢
  obtain ⟨l12, e12⟩ := h12
  obtain ⟨l23, e23⟩ := h23
  refine ⟨l12.trans l23, fun i h1 h3 => ?_⟩
  have h2 : i < v2.length := l12 ▸ h1
  exact htrans _ _ _ (e12 i h1 h2) (e23 i h2 h3)

/-- The `==` on `double` is symmetric. -/
theorem Double_eq_symm (a b : Double) (h : Double.eq a b = true) : Double.eq b a = true := by
  simp only [Double.eq, Bool.and_eq_true, Bool.or_eq_true, Bool.not_eq_true',
    decide_eq_true_eq] at h ⊢
  obtain ⟨⟨ha, hb⟩, hz⟩ := h
  refine ⟨⟨hb, ha⟩, ?_⟩
  rcases hz with ⟨za, zb⟩ | hab
  · exact Or.inl ⟨zb, za⟩
  · exact Or.inr hab.symm

/-- The `==` on `double` is transitive. -/
theorem Double_eq_trans (a b c : Double) (hab : Double.eq a b = true)
    (hbc : Double.eq b c = true) : Double.eq a c = true := by
  simp only [Double.eq, Bool.and_eq_true, Bool.or_eq_true, Bool.not_eq_true',
    decide_eq_true_eq] at hab hbc ⊢
  obtain ⟨⟨ha, -⟩, h1⟩ := hab
  obtain ⟨⟨-, hc⟩, h2⟩ := hbc
  refine ⟨⟨ha, hc⟩, ?_⟩
  rcases h1 with ⟨za, zb⟩ | rfl
  · rcases h2 with ⟨-, zc⟩ | rfl
    · exact Or.inl ⟨za, zc⟩
    · exact Or.inl ⟨za, zb⟩
  · exact h2

/-- The table overload is the generic helper over rows compared by the generic
helper over cells. -/
theorem is_all_equal_Real_Matrix_eq_generic (m1 m2 : Real_Matrix) :
    is_all_equal_Real_Matrix m1 m2 = is_all_equal (is_all_equal Double.eq) m1 m2 := by
  rw [Bool.eq_iff_iff, is_all_equal_Real_Matrix_iff, is_all_equal_iff]
  simp only [is_all_equal_iff]

/-- C18 (as amended): over an element comparison that is reflexive, symmetric
and transitive the generic `is_all_equal` is reflexive, symmetric and
transitive; the `Real_Matrix` overload is symmetric and transitive, and it is
reflexive exactly on the tables that hold no NaN. -/
theorem C18_is_all_equal_lifts_equivalence {T : Type} (eq : T → T → Bool)
    (hrefl : ∀ a, eq a a = true)
    (hsymm : ∀ a b, eq a b = true → eq b a = true)
    (htrans : ∀ a b c, eq a b = true → eq b c = true → eq a c = true) :
    (∀ v, is_all_equal eq v v = true) ∧
    (∀ v1 v2, is_all_equal eq v1 v2 = is_all_equal eq v2 v1) ∧
    (∀ v1 v2 v3, is_all_equal eq v1 v2 = true → is_all_equal eq v2 v3 = true →
      is_all_equal eq v1 v3 = true) ∧
    (∀ m, is_all_equal_Real_Matrix m m = Real_Matrix.noNaN m) ∧
    (∀ m1 m2, is_all_equal_Real_Matrix m1 m2 = is_all_equal_Real_Matrix m2 m1) ∧
    (∀ m1 m2 m3, is_all_equal_Real_Matrix m1 m2 = true →
      is_all_equal_Real_Matrix m2 m3 = true → is_all_equal_Real_Matrix m1 m3 = true) := by
  refine ⟨is_all_equal_refl eq hrefl, is_all_equal_symm eq hsymm,
    is_all_equal_trans eq htrans, is_all_equal_Real_Matrix_self, fun m1 m2 => ?_,
    fun m1 m2 m3 h12 h23 => ?_⟩
  · rw [is_all_equal_Real_Matrix_eq_generic, is_all_equal_Real_Matrix_eq_generic]
    exact is_all_equal_symm _
      (fun r1 r2 h => (is_all_equal_symm Double.eq Double_eq_symm r2 r1).trans h) m1 m2
  · rw [is_all_equal_Real_Matrix_eq_generic] at h12 h23 ⊢
    exact is_all_equal_trans _ (is_all_equal_trans Double.eq Double_eq_trans) m1 m2 m3 h12 h23

/-- C18 at the element type `int`: its `==` is an equivalence, and `[1, 2]`
compares equal to itself. -/
theorem C18_is_all_equal_lifts_equivalence_witness :
    is_all_equal Int_eq [1, 2] [1, 2] = true :=
  (C18_is_all_equal_lifts_equivalence Int_eq
    (by intro a; simp [Int_eq])
    (by intro a b h; simp only [Int_eq, beq_iff_eq] at h ⊢; exact h.symm)
    (by intro a b c h1 h2; simp only [Int_eq, beq_iff_eq] at h1 h2 ⊢; exact h1.trans h2)).1
    [1, 2]

/-- C18 as stated fails for the `Real_Matrix` overload: a table with a NaN
cell does not compare equal to itself. -/
theorem C18_Real_Matrix_not_reflexive :
    is_all_equal_Real_Matrix [[Double.nan]] [[Double.nan]] = false := by
  decide

end Bmad

namespace B4

/-! ### The primary generator -/

/-- The outcome of `GeneratePrimaries` when the world volume is a box. -/
theorem GeneratePrimaries_of_box {R P : Type} [Ring R] (self : B4PrimaryGeneratorAction R P)
    (store : G4LogicalVolumeStore R) (anEvent : G4Event R P)
    (lv : G4LogicalVolume R) (box : G4Box R)
    (hlv : G4LogicalVolumeStore.GetVolume store "World" = some lv)
    (hbox : lv.solid = G4VSolid.box box) :
    self.GeneratePrimaries store anEvent =
      { self := { fParticleGun := self.fParticleGun.SetParticlePosition ⟨0, 0, -box.fDz⟩ },
        anEvent := (self.fParticleGun.SetParticlePosition
          ⟨0, 0, -box.fDz⟩).GeneratePrimaryVertex anEvent,
        exceptions := [] } := by
  simp [B4PrimaryGeneratorAction.GeneratePrimaries, hlv, G4LogicalVolume.GetSolid, hbox,
    dynamic_cast_G4Box, G4Box.GetZHalfLength]

/-- The outcome of `GeneratePrimaries` when the world volume is absent or is
not a box. -/
theorem GeneratePrimaries_of_missing {R P : Type} [Ring R]
    (self : B4PrimaryGeneratorAction R P) (store : G4LogicalVolumeStore R)
    (anEvent : G4Event R P) (h : WorldBoxMissing store) :
    self.GeneratePrimaries store anEvent =
      { self := { fParticleGun := self.fParticleGun.SetParticlePosition ⟨0, 0, 0⟩ },
        anEvent := (self.fParticleGun.SetParticlePosition
          ⟨0, 0, 0⟩).GeneratePrimaryVertex anEvent,
        exceptions := [worldNotFound] } := by
  rcases h with h | ⟨lv, k, hlv, hk⟩
  · simp [B4PrimaryGeneratorAction.GeneratePrimaries, h]
  · simp [B4PrimaryGeneratorAction.GeneratePrimaries, hlv, G4LogicalVolume.GetSolid, hk,
      dynamic_cast_G4Box]

/-- Either the world volume is a box, or it is missing in the sense of the
specification. -/
theorem world_box_or_missing {R : Type} (store : G4LogicalVolumeStore R) :
    WorldBoxMissing store ∨
      ∃ lv box, G4LogicalVolumeStore.GetVolume store "World" = some lv ∧
        lv.solid = G4VSolid.box box := by
  cases hlv : G4LogicalVolumeStore.GetVolume store "World" with
  | none => exact Or.inl (Or.inl hlv)
  | some lv =>
    cases hs : lv.solid with
    | box b => exact Or.inr ⟨lv, b, rfl, hs⟩
    | other k => exact Or.inl (Or.inr ⟨lv, k, hlv, hs⟩)

/-- A store cannot both hold a world box and miss it. -/
theorem not_missing_of_box {R : Type} (store : G4LogicalVolumeStore R)
    (lv : G4LogicalVolume R) (box : G4Box R)
    (hlv : G4LogicalVolumeStore.GetVolume store "World" = some lv)
    (hbox : lv.solid = G4VSolid.box box) : ¬ WorldBoxMissing store := by
  rintro (h | ⟨lv2, k, hlv2, hk⟩)
  · rw [h] at hlv
    cases hlv
  · rw [hlv] at hlv2
    cases hlv2
    rw [hbox] at hk
    cases hk

/-- C9: for every beam energy `E` and every world volume that is a box of
half-length `h` along z, the constructor followed by one call of
`GeneratePrimaries` leaves the gun with position `(0, 0, -h)`, momentum
direction `(sin 0, 0, cos 0)`, which is `(0, 0, 1)` as `sin 0 = 0` and
`cos 0 = 1`, the particle found under the name "e-", and kinetic energy
`E * MeV`. -/
theorem C9_box_world_source {R P : Type} [Ring R] (env : Externals R P) (E : R)
    (store : G4LogicalVolumeStore R) (anEvent : G4Event R P)
    (lv : G4LogicalVolume R) (dx dy h : R)
    (hlv : G4LogicalVolumeStore.GetVolume store "World" = some lv)
    (hbox : lv.solid = G4VSolid.box ⟨dx, dy, h⟩)
    (hsin : env.sin 0 = 0) (hcos : env.cos 0 = 1) :
    (((B4PrimaryGeneratorAction.new env E).GeneratePrimaries store
        anEvent).self.fParticleGun.particle_position = some ⟨0, 0, -h⟩) ∧
    (((B4PrimaryGeneratorAction.new env E).GeneratePrimaries store
        anEvent).self.fParticleGun.particle_momentum_direction =
          some ⟨env.sin 0, 0, env.cos 0⟩) ∧
    (((B4PrimaryGeneratorAction.new env E).GeneratePrimaries store
        anEvent).self.fParticleGun.particle_momentum_direction = some ⟨0, 0, 1⟩) ∧
    (((B4PrimaryGeneratorAction.new env E).GeneratePrimaries store
        anEvent).self.fParticleGun.particle_definition = some (env.FindParticle "e-")) ∧
    (((B4PrimaryGeneratorAction.new env E).GeneratePrimaries store
        anEvent).self.fParticleGun.particle_energy = some (E * env.MeV)) := by
  rw [GeneratePrimaries_of_box _ store anEvent lv ⟨dx, dy, h⟩ hlv hbox]
  simp [B4PrimaryGeneratorAction.new, G4ParticleGun.new, G4ParticleGun.SetParticlePosition,
    G4ParticleGun.SetParticleDefinition, G4ParticleGun.SetParticleMomentumDirection,
    G4ParticleGun.SetParticleEnergy, hsin, hcos]

/-- C9 at the scenario of the specification, over the real numbers with the
real sine and cosine: energy 200 and a world box of half-length 50 give the
position `(0, 0, -50)` and the direction `(0, 0, 1)`. -/
theorem C9_box_world_source_witness :
    ((B4PrimaryGeneratorAction.new (⟨Real.sin, Real.cos, 1, id⟩ : Externals ℝ String)
        200).GeneratePrimaries [⟨"World", G4VSolid.box ⟨50, 50, 50⟩⟩]
        ⟨[]⟩).self.fParticleGun.particle_position = some ⟨0, 0, -50⟩ ∧
    ((B4PrimaryGeneratorAction.new (⟨Real.sin, Real.cos, 1, id⟩ : Externals ℝ String)
        200).GeneratePrimaries [⟨"World", G4VSolid.box ⟨50, 50, 50⟩⟩]
        ⟨[]⟩).self.fParticleGun.particle_momentum_direction = some ⟨0, 0, 1⟩ :=
  have h := C9_box_world_source (⟨Real.sin, Real.cos, 1, id⟩ : Externals ℝ String) 200
    [⟨"World", G4VSolid.box ⟨50, 50, 50⟩⟩] ⟨[]⟩ ⟨"World", G4VSolid.box ⟨50, 50, 50⟩⟩
    50 50 50 (by simp [G4LogicalVolumeStore.GetVolume]) rfl Real.sin_zero Real.cos_zero
  ⟨h.1, h.2.2.1⟩

/-- C10: `GeneratePrimaries` calls `G4Exception` with the "World volume of box
not found" message exactly when the volume named "World" is absent or its
solid is not a box; the call has severity `JustWarning` and is the only one
made; in that case the position is set to the origin and the vertex is still
requested. With a world box of half-length `h` no warning is issued and the
position is `(0, 0, -h)`, which is not the origin unless `h = 0`. -/
theorem C10_world_warning {R P : Type} [Ring R] (self : B4PrimaryGeneratorAction R P)
    (store : G4LogicalVolumeStore R) (anEvent : G4Event R P) :
    (worldNotFound ∈ (self.GeneratePrimaries store anEvent).exceptions ↔
      WorldBoxMissing store) ∧
    worldNotFound.severity = G4ExceptionSeverity.JustWarning ∧
    (∀ e ∈ (self.GeneratePrimaries store anEvent).exceptions, e = worldNotFound) ∧
    (WorldBoxMissing store →
      (self.GeneratePrimaries store anEvent).exceptions = [worldNotFound] ∧
      (self.GeneratePrimaries store anEvent).self.fParticleGun.particle_position =
        some ⟨0, 0, 0⟩ ∧
      (self.GeneratePrimaries store anEvent).anEvent.vertexRequests =
        anEvent.vertexRequests ++ [(self.GeneratePrimaries store anEvent).self.fParticleGun]) ∧
    (∀ lv box, G4LogicalVolumeStore.GetVolume store "World" = some lv →
      lv.solid = G4VSolid.box box →
      (self.GeneratePrimaries store anEvent).exceptions = [] ∧
      (self.GeneratePrimaries store anEvent).self.fParticleGun.particle_position =
        some ⟨0, 0, -box.fDz⟩ ∧
      (box.fDz ≠ 0 →
        (self.GeneratePrimaries store anEvent).self.fParticleGun.particle_position ≠
          some ⟨0, 0, 0⟩)) := by
  have hbox : ∀ lv box, G4LogicalVolumeStore.GetVolume store "World" = some lv →
      lv.solid = G4VSolid.box box →
      (self.GeneratePrimaries store anEvent).exceptions = [] ∧
      (self.GeneratePrimaries store anEvent).self.fParticleGun.particle_position =
        some ⟨0, 0, -box.fDz⟩ ∧
      (box.fDz ≠ 0 →
        (self.GeneratePrimaries store anEvent).self.fParticleGun.particle_position ≠
          some ⟨0, 0, 0⟩) := by
    intro lv box hlv hb
    rw [GeneratePrimaries_of_box self store anEvent lv box hlv hb]
    refine ⟨rfl, rfl, fun hne heq => hne ?_⟩
    simp only [G4ParticleGun.SetParticlePosition, Option.some.injEq,
      G4ThreeVector.mk.injEq, neg_eq_zero, true_and] at heq
    exact heq
  have hmiss : WorldBoxMissing store →
      (self.GeneratePrimaries store anEvent).exceptions = [worldNotFound] ∧
      (self.GeneratePrimaries store anEvent).self.fParticleGun.particle_position =
        some ⟨0, 0, 0⟩ ∧
      (self.GeneratePrimaries store anEvent).anEvent.vertexRequests =
        anEvent.vertexRequests ++
          [(self.GeneratePrimaries store anEvent).self.fParticleGun] := by
    intro h
    rw [GeneratePrimaries_of_missing self store anEvent h]
    exact ⟨rfl, rfl, rfl⟩
  refine ⟨⟨fun hin => ?_, fun h => ?_⟩, rfl, fun e he => ?_, hmiss, hbox⟩
  · rcases world_box_or_missing store with h | ⟨lv, box, hlv, hb⟩
    · exact h
    · rw [(hbox lv box hlv hb).1] at hin
      cases hin
  · rw [(hmiss h).1]
    exact List.mem_singleton.mpr rfl
  · rcases world_box_or_missing store with h | ⟨lv, box, hlv, hb⟩
    · rw [(hmiss h).1] at he
      exact List.mem_singleton.mp he
    · rw [(hbox lv box hlv hb).1] at he
      cases he

/-- C10 at the scenario of the specification: on an empty volume store the
call issues the one warning and leaves the position at the origin. -/
theorem C10_world_warning_witness :
    ((B4PrimaryGeneratorAction.new (⟨Real.sin, Real.cos, 1, id⟩ : Externals ℝ String)
        200).GeneratePrimaries [] ⟨[]⟩).exceptions = [worldNotFound] ∧
    ((B4PrimaryGeneratorAction.new (⟨Real.sin, Real.cos, 1, id⟩ : Externals ℝ String)
        200).GeneratePrimaries [] ⟨[]⟩).self.fParticleGun.particle_position =
      some ⟨0, 0, 0⟩ :=
  have h := (C10_world_warning
    (B4PrimaryGeneratorAction.new (⟨Real.sin, Real.cos, 1, id⟩ : Externals ℝ String) 200)
    [] ⟨[]⟩).2.2.2.1 (Or.inl rfl)
  ⟨h.1, h.2.1⟩

/-! ### One vertex an event, and nothing carried over -/

/-- For each volume store there is one position and one list of warnings such
that every call of `GeneratePrimaries` against that store, from any generator
and on any event, sets that position, then requests one vertex. -/
theorem GeneratePrimaries_shape {R P : Type} [Ring R] (store : G4LogicalVolumeStore R) :
    ∃ (pos : G4ThreeVector R) (exc : List G4ExceptionCall),
      ∀ (self : B4PrimaryGeneratorAction R P) (anEvent : G4Event R P),
        self.GeneratePrimaries store anEvent =
          { self := { fParticleGun := self.fParticleGun.SetParticlePosition pos },
            anEvent := (self.fParticleGun.SetParticlePosition pos).GeneratePrimaryVertex
              anEvent,
            exceptions := exc } := by
  rcases world_box_or_missing store with h | ⟨lv, box, hlv, hb⟩
  · exact ⟨⟨0, 0, 0⟩, [worldNotFound], fun self anEvent =>
      GeneratePrimaries_of_missing self store anEvent h⟩
  · exact ⟨⟨0, 0, -box.fDz⟩, [], fun self anEvent =>
      GeneratePrimaries_of_box self store anEvent lv box hlv hb⟩

/-- A call of `GeneratePrimaries` changes nothing of the gun but its position. -/
theorem GeneratePrimaries_frame {R P : Type} [Ring R] (self : B4PrimaryGeneratorAction R P)
    (store : G4LogicalVolumeStore R) (anEvent : G4Event R P) :
    (self.GeneratePrimaries store anEvent).self.fParticleGun =
      { self.fParticleGun with
        particle_position :=
          (self.GeneratePrimaries store anEvent).self.fParticleGun.particle_position } := by
  obtain ⟨pos, exc, h⟩ := GeneratePrimaries_shape (P := P) store
  rw [h self anEvent]
  rfl

/-- After any number of events the gun differs from the one it started with in
its position at most. -/
theorem afterEvents_frame {R P : Type} [Ring R]
    (calls : List (G4LogicalVolumeStore R × G4Event R P))
    (self : B4PrimaryGeneratorAction R P) :
    (self.afterEvents calls).fParticleGun =
      { self.fParticleGun with
        particle_position := (self.afterEvents calls).fParticleGun.particle_position } := by
  induction calls generalizing self with
  | nil => rfl
  | cons c rest ih =>
    have h1 := ih (self.GeneratePrimaries c.1 c.2).self
    have h2 := GeneratePrimaries_frame self c.1 c.2
    have hstep : self.afterEvents (c :: rest) =
        (self.GeneratePrimaries c.1 c.2).self.afterEvents rest := rfl
    rw [hstep, h1, h2]

/-- C11: every call of `GeneratePrimaries` on a generator built by the
constructor, after any number of earlier events and on either path, adds
exactly one vertex request to the event; the request is made by a gun
configured for one particle and carries the position set in that call: the
origin on the warning path, `(0, 0, -h)` for a world box of half-length `h`. -/
theorem C11_one_vertex_per_event {R P : Type} [Ring R] (env : Externals R P) (E : R)
    (calls : List (G4LogicalVolumeStore R × G4Event R P))
    (store : G4LogicalVolumeStore R) (anEvent : G4Event R P) :
    (((B4PrimaryGeneratorAction.new env E).afterEvents calls).GeneratePrimaries
          store anEvent).anEvent.vertexRequests =
      anEvent.vertexRequests ++
        [(((B4PrimaryGeneratorAction.new env E).afterEvents calls).GeneratePrimaries
              store anEvent).self.fParticleGun] ∧
    (((B4PrimaryGeneratorAction.new env E).afterEvents calls).GeneratePrimaries
          store anEvent).anEvent.vertexRequests.length =
      anEvent.vertexRequests.length + 1 ∧
    (((B4PrimaryGeneratorAction.new env E).afterEvents calls).GeneratePrimaries
          store anEvent).self.fParticleGun.NumberOfParticles = 1 ∧
    (WorldBoxMissing store →
      (((B4PrimaryGeneratorAction.new env E).afterEvents calls).GeneratePrimaries
            store anEvent).self.fParticleGun.particle_position =
        some ⟨0, 0, 0⟩) ∧
    (∀ lv box, G4LogicalVolumeStore.GetVolume store "World" = some lv →
      lv.solid = G4VSolid.box box →
      (((B4PrimaryGeneratorAction.new env E).afterEvents calls).GeneratePrimaries
            store anEvent).self.fParticleGun.particle_position =
        some ⟨0, 0, -box.fDz⟩) := by
  have hn : ((B4PrimaryGeneratorAction.new env E).afterEvents calls).fParticleGun.NumberOfParticles
      = 1 := by
    rw [afterEvents_frame]
    rfl
  have hreq : (((B4PrimaryGeneratorAction.new env E).afterEvents calls).GeneratePrimaries
        store anEvent).anEvent.vertexRequests =
      anEvent.vertexRequests ++
        [(((B4PrimaryGeneratorAction.new env E).afterEvents calls).GeneratePrimaries
              store anEvent).self.fParticleGun] := by
    obtain ⟨pos, exc, h⟩ := GeneratePrimaries_shape (P := P) store
    rw [h]
    rfl
  refine ⟨hreq, ?_, ?_, fun h => ?_, fun lv box hlv hb => ?_⟩
  · rw [hreq, List.length_append, List.length_singleton]
  · rw [GeneratePrimaries_frame]
    exact hn
  · rw [GeneratePrimaries_of_missing _ store anEvent h]
    rfl
  · rw [GeneratePrimaries_of_box _ store anEvent lv box hlv hb]
    rfl

/-- C13: a call of `GeneratePrimaries` changes nothing of the gun but its
position. On a generator built by the constructor, after any number of
earlier events, the particle, the kinetic energy, the momentum direction and
the particle count are still what the constructor set; and the position set
is the same from whatever generator state and on whatever event the call is
made against the same volume store. -/
theorem C13_only_position_changes {R P : Type} [Ring R] (env : Externals R P) (E : R)
    (calls : List (G4LogicalVolumeStore R × G4Event R P))
    (store : G4LogicalVolumeStore R) (anEvent : G4Event R P) :
    (∀ self : B4PrimaryGeneratorAction R P,
      (self.GeneratePrimaries store anEvent).self.fParticleGun =
        { self.fParticleGun with
          particle_position :=
            (self.GeneratePrimaries store anEvent).self.fParticleGun.particle_position }) ∧
    (((B4PrimaryGeneratorAction.new env E).afterEvents calls).GeneratePrimaries
          store anEvent).self.fParticleGun.particle_definition =
      some (env.FindParticle "e-") ∧
    (((B4PrimaryGeneratorAction.new env E).afterEvents calls).GeneratePrimaries
          store anEvent).self.fParticleGun.particle_energy =
      some (E * env.MeV) ∧
    (((B4PrimaryGeneratorAction.new env E).afterEvents calls).GeneratePrimaries
          store anEvent).self.fParticleGun.particle_momentum_direction =
      some ⟨env.sin 0, 0, env.cos 0⟩ ∧
    (((B4PrimaryGeneratorAction.new env E).afterEvents calls).GeneratePrimaries
          store anEvent).self.fParticleGun.NumberOfParticles = 1 ∧
    (∀ (self1 self2 : B4PrimaryGeneratorAction R P) (ev1 ev2 : G4Event R P),
      (self1.GeneratePrimaries store ev1).self.fParticleGun.particle_position =
        (self2.GeneratePrimaries store ev2).self.fParticleGun.particle_position) := by
  have hframe : (((B4PrimaryGeneratorAction.new env E).afterEvents calls).GeneratePrimaries
        store anEvent).self.fParticleGun =
      { (B4PrimaryGeneratorAction.new env E).fParticleGun with
        particle_position :=
          (((B4PrimaryGeneratorAction.new env E).afterEvents calls).GeneratePrimaries
                store anEvent).self.fParticleGun.particle_position } := by
    rw [GeneratePrimaries_frame, afterEvents_frame]
  refine ⟨fun self => GeneratePrimaries_frame self store anEvent, ?_, ?_, ?_, ?_,
    fun self1 self2 ev1 ev2 => ?_⟩
  · rw [hframe]
    rfl
  · rw [hframe]
    rfl
  · rw [hframe]
    rfl
  · rw [hframe]
    rfl
  · obtain ⟨pos, exc, h⟩ := GeneratePrimaries_shape (P := P) store
    rw [h self1 ev1, h self2 ev2]
    rfl

/-- C11 at a concrete run over the real numbers: after one earlier event on an
empty store, a call on an event without requests leaves one request on it. -/
theorem C11_one_vertex_per_event_witness :
    (((B4PrimaryGeneratorAction.new (⟨Real.sin, Real.cos, 1, id⟩ : Externals ℝ String)
        200).afterEvents [([], ⟨[]⟩)]).GeneratePrimaries
        [⟨"World", G4VSolid.box ⟨50, 50, 50⟩⟩] ⟨[]⟩).anEvent.vertexRequests.length =
      (⟨[]⟩ : G4Event ℝ String).vertexRequests.length + 1 :=
  (C11_one_vertex_per_event (⟨Real.sin, Real.cos, 1, id⟩ : Externals ℝ String) 200
    [([], ⟨[]⟩)] [⟨"World", G4VSolid.box ⟨50, 50, 50⟩⟩] ⟨[]⟩).2.1

/-- C13 at a concrete run over the real numbers: after one earlier event on an
empty store, a call against a world box leaves the energy at `200 * MeV`. -/
theorem C13_only_position_changes_witness :
    (((B4PrimaryGeneratorAction.new (⟨Real.sin, Real.cos, 1, id⟩ : Externals ℝ String)
        200).afterEvents [([], ⟨[]⟩)]).GeneratePrimaries
        [⟨"World", G4VSolid.box ⟨50, 50, 50⟩⟩] ⟨[]⟩).self.fParticleGun.particle_energy =
      some (200 * 1) :=
  (C13_only_position_changes (⟨Real.sin, Real.cos, 1, id⟩ : Externals ℝ String) 200
    [([], ⟨[]⟩)] [⟨"World", G4VSolid.box ⟨50, 50, 50⟩⟩] ⟨[]⟩).2.2.1

end B4
